import Mathlib

/-!
Shallow embedding of the honoluluflu repository core (`hf/espn.py` and
`hf/flu.py`).

External effects are parameters:
* `fetch team_id season season_type` stands for the HTTP fetch plus JSON
  decoding of one season-type partition of a team schedule in
  `get_team_schedule`; it returns the decoded event list, or an error where
  the Python `try` block raises.
* `pd s` stands for `int(dateutil.parser.parse(s).timestamp())`; it returns
  `none` where the Python call raises.
* `getSched team_id season` stands for the schedule provider
  `get_team_schedule` as seen by `compute_honolulu_flu`; the concrete
  composition with the ESPN provider is `compute_honolulu_flu_espn`.
-/

/-- `FollowMode = Literal["week", "game"]` from `hf/flu.py`. -/
inductive FollowMode where
  | week
  | game
deriving DecidableEq

/-- `PlayMode = Literal["play", "beat"]` from `hf/flu.py`. -/
inductive PlayMode where
  | play
  | beat
deriving DecidableEq

/-- The normalized game dictionary built by `_parse_game` in `hf/espn.py`
and consumed by `compute_honolulu_flu`.  Every key is always present in the
Python dict; values that can be `None` are `Option`s here. -/
structure GameRec where
  event_id : Option String
  date : Option String
  completed : Bool
  season : Option Int
  season_type : Option Int
  week : Option Int
  week_text : Option String
  is_home : Bool
  team_id : String
  team_score : Option Int
  opp_id : Option String
  opp_name : Option String
  opp_score : Option Int
  team_result : Option String
deriving DecidableEq

/-- The `GameRow` dataclass from `hf/flu.py`. -/
structure GameRow where
  season : Int
  week : Option Int
  week_label : Option String
  date : String
  is_home : Bool
  opp_id : String
  opp_name : String
  lions_result : Option String
  lions_team_score : Option Int
  lions_opp_score : Option Int
  opp_next_date : Option String
  opp_next_week : Option Int
  opp_next_week_label : Option String
  opp_next_result : Option String
  opp_next_opp_name : Option String
  opp_next_team_score : Option Int
  opp_next_opp_score : Option Int
  opp_next_after_bye : Bool
  opp_next_cross_season : Bool
  opp_next_is_home : Option Bool
deriving DecidableEq

/-- `lions_vs_label` property of `GameRow`. -/
def GameRow.lions_vs_label (r : GameRow) : String :=
  (if r.is_home then "vs " else "@ ") ++ r.opp_name

/-- `honolulu_flu_loss` property of `GameRow`: `None` when
`opp_next_result` is `None`, else whether it equals `"L"`. -/
def GameRow.honolulu_flu_loss (r : GameRow) : Option Bool :=
  match r.opp_next_result with
  | Option.none => Option.none
  | Option.some res => Option.some (decide (res = "L"))

/-- Python `str(x)` on an optional string: `str(None) = "None"`. -/
def pyStr (s : Option String) : String := s.getD "None"

/-- `_parse_iso` from `hf/flu.py`: `None` for a missing or empty date
string, otherwise the (possibly failing) timestamp parse `pd`. -/
def parse_iso (pd : String → Option Int) (date_str : Option String) : Option Int :=
  match date_str with
  | Option.none => Option.none
  | Option.some s => if s = "" then Option.none else pd s

/-- `_pick_next_week_game` from `hf/flu.py`: the first schedule row that is
a regular-season game (`season_type == 2`) in exactly `target_week`. -/
def pick_next_week_game (opponent_schedule : List GameRec) (target_week : Int) :
    Option GameRec :=
  opponent_schedule.find?
    (fun row => decide (row.season_type = some 2 ∧ row.week = some target_week))

/-- One iteration of the loop of `_pick_next_game_after`: keep the
candidate with the smallest parsed timestamp strictly greater than
`lions_game_ts` (first occurrence wins ties). -/
def pickAfterStep (pd : String → Option Int) (lions_game_ts : Int)
    (best : Option (Int × GameRec)) (row : GameRec) : Option (Int × GameRec) :=
  match parse_iso pd row.date with
  | Option.none => best
  | Option.some ts =>
      if ts > lions_game_ts then
        match best with
        | Option.none => some (ts, row)
        | Option.some b => if ts < b.1 then some (ts, row) else best
      else best

/-- The loop of `_pick_next_game_after`. -/
def pickAfterLoop (pd : String → Option Int) (lions_game_ts : Int) :
    Option (Int × GameRec) → List GameRec → Option (Int × GameRec)
  | best, [] => best
  | best, row :: rest =>
      pickAfterLoop pd lions_game_ts (pickAfterStep pd lions_game_ts best row) rest

/-- `_pick_next_game_after` from `hf/flu.py`. -/
def pick_next_game_after (pd : String → Option Int)
    (opponent_schedule : List GameRec) (lions_game_ts : Int) : Option GameRec :=
  (pickAfterLoop pd lions_game_ts none opponent_schedule).map Prod.snd

/-- The `continue`-filter of `_pick_next_game_after_with_filters`: `true`
when a filter is set and the row's field does not equal it. -/
def optFilterNe (filt : Option Int) (v : Option Int) : Bool :=
  match filt with
  | Option.none => false
  | Option.some s => decide (v ≠ some s)

/-- One iteration of the loop of `_pick_next_game_after_with_filters`:
`continue` on a failed filter, an unparsable date, or a timestamp not
strictly after `after_ts`; otherwise keep the candidate with the strictly smaller timestamp. -/
def pickFiltStep (pd : String → Option Int) (after_ts : Int)
    (season_filter season_type_filter : Option Int)
    (best : Option (Int × GameRec)) (row : GameRec) : Option (Int × GameRec) :=
  if optFilterNe season_filter row.season then best
  else if optFilterNe season_type_filter row.season_type then best
  else
    match parse_iso pd row.date with
    | Option.none => best
    | Option.some ts =>
        if ts ≤ after_ts then best
        else
          match best with
          | Option.none => some (ts, row)
          | Option.some b => if ts < b.1 then some (ts, row) else best

/-- The loop of `_pick_next_game_after_with_filters` from `hf/flu.py`. -/
def pickFiltLoop (pd : String → Option Int) (after_ts : Int)
    (season_filter season_type_filter : Option Int) :
    Option (Int × GameRec) → List GameRec → Option (Int × GameRec)
  | best, [] => best
  | best, row :: rest =>
      pickFiltLoop pd after_ts season_filter season_type_filter
        (pickFiltStep pd after_ts season_filter season_type_filter best row) rest

/-- `_pick_next_game_after_with_filters` from `hf/flu.py`. -/
def pick_next_game_after_with_filters (pd : String → Option Int)
    (opponent_schedule : List GameRec) (after_ts : Int)
    (season_filter season_type_filter : Option Int) : Option GameRec :=
  (pickFiltLoop pd after_ts season_filter season_type_filter none
    opponent_schedule).map Prod.snd

/-- A schedule row is a candidate of `_pick_next_game_after_with_filters`
with parsed timestamp `t`: it passes both optional filters, its date
parses to `t`, and `t` is strictly after `after_ts`. -/
def isCand (pd : String → Option Int) (after_ts : Int)
    (season_filter season_type_filter : Option Int) (r : GameRec) (t : Int) :
    Prop :=
  optFilterNe season_filter r.season = false ∧
  optFilterNe season_type_filter r.season_type = false ∧
  parse_iso pd r.date = some t ∧ after_ts < t

/-- Stable insertion of `x` into a key-sorted list: `x` goes after every
element whose key is less than or equal to its own, as Python's stable
`sorted` would place a later element. -/
def insertByKey {α β : Type} [LinearOrder β] (key : α → β) (x : α) :
    List α → List α
  | [] => [x]
  | y :: ys => if key y ≤ key x then y :: insertByKey key x ys else x :: y :: ys

/-- Stable ascending sort by key, modelling Python's `sorted(l, key=key)`
and `l.sort(key=key)`. -/
def sortByKey {α β : Type} [LinearOrder β] (key : α → β) (l : List α) : List α :=
  l.foldl (fun acc x => insertByKey key x acc) []

/-- The sort key `lambda r: _parse_iso(r.get("date")) or 0` used by the
cross-season fallbacks in `compute_honolulu_flu`. -/
def fallbackKey (pd : String → Option Int) (r : GameRec) : Int :=
  (parse_iso pd r.date).getD 0

/-- One iteration of the per-game body of `compute_honolulu_flu` in
`hf/flu.py`: resolve the opponent's next game for one subject game,
returning `(next_row, after_bye, cross_season)`. -/
def linkGame (getSched : String → Int → List GameRec) (pd : String → Option Int)
    (season : Int) (follow_mode : FollowMode) (game : GameRec) :
    Option GameRec × Bool × Bool :=
  let opp_id := pyStr game.opp_id
  let lions_game_ts := (parse_iso pd game.date).getD 0
  let opp_sched := getSched opp_id season
  if game.season_type = some 3 then
    if game.team_result = some "L" then
      (pick_next_game_after_with_filters pd opp_sched lions_game_ts
        (some season) (some 3), false, false)
    else
      let next_sched_sorted :=
        sortByKey (fallbackKey pd)
          ((getSched opp_id (season + 1)).filter
            (fun r => decide (r.season_type = some 2)))
      (next_sched_sorted.head?, false, next_sched_sorted.head?.isSome)
  else
    match follow_mode with
    | FollowMode.week =>
      let next_row₀ :=
        match game.week with
        | Option.some w => pick_next_week_game opp_sched (w + 1)
        | Option.none => Option.none
      match next_row₀ with
      | Option.some n => (some n, false, false)
      | Option.none =>
        if (pick_next_game_after_with_filters pd opp_sched lions_game_ts
              (some season) none).isSome then
          (none, true, false)
        else
          let next_sched_sorted :=
            sortByKey (fallbackKey pd)
              ((getSched opp_id (season + 1)).filter
                (fun r => decide (r.season_type = some 2)))
          (next_sched_sorted.head?, false, next_sched_sorted.head?.isSome)
    | FollowMode.game =>
      match pick_next_game_after pd opp_sched lions_game_ts with
      | Option.some n => (some n, false, false)
      | Option.none =>
        let next_sched_sorted :=
          sortByKey (fallbackKey pd) (getSched opp_id (season + 1))
        (next_sched_sorted.head?, false, next_sched_sorted.head?.isSome)

/-- The `rows.append(GameRow(...))` record construction of
`compute_honolulu_flu`. -/
def emitRow (season : Int) (game : GameRec) (next_row : Option GameRec)
    (after_bye cross_season : Bool) : GameRow :=
  { season := season
    week := game.week
    week_label := game.week_text
    date := pyStr game.date
    is_home := game.is_home
    opp_id := pyStr game.opp_id
    opp_name := game.opp_name.getD ""
    lions_result := game.team_result
    lions_team_score := game.team_score
    lions_opp_score := game.opp_score
    opp_next_date := next_row.bind (fun r => r.date)
    opp_next_week := next_row.bind (fun r => r.week)
    opp_next_week_label := next_row.bind (fun r => r.week_text)
    opp_next_result := next_row.bind (fun r => r.team_result)
    opp_next_opp_name := next_row.bind (fun r => r.opp_name)
    opp_next_team_score := next_row.bind (fun r => r.team_score)
    opp_next_opp_score := next_row.bind (fun r => r.opp_score)
    opp_next_after_bye := after_bye
    opp_next_cross_season := cross_season
    opp_next_is_home := next_row.map (fun r => r.is_home) }

/-- `compute_honolulu_flu` from `hf/flu.py`, parameterized over the
schedule provider `getSched` (the imported `get_team_schedule`) and the
timestamp parser `pd`. -/
def compute_honolulu_flu (getSched : String → Int → List GameRec)
    (pd : String → Option Int) (seasons : List Int) (play_mode : PlayMode)
    (follow_mode : FollowMode) (subject_team_id : String) : List GameRow :=
  seasons.foldl
    (fun rows season =>
      let subject_schedule :=
        (getSched subject_team_id season).filter
          (fun r => decide (r.season_type = some 2 ∨ r.season_type = some 3))
      subject_schedule.foldl
        (fun rows game =>
          if game.completed = false then rows
          else if play_mode = PlayMode.beat ∧ game.team_result ≠ some "W" then rows
          else
            let res := linkGame getSched pd season follow_mode game
            rows ++ [emitRow season game res.1 res.2.1 res.2.2])
        rows)
    []

/-! ## The ESPN schedule provider (`hf/espn.py`) -/

/-- The `score` field of a competitor as `_extract_score` in `hf/espn.py`
distinguishes it: absent, a number, a string, or a dict with `value` /
`displayValue` keys.  Numeric JSON values are modelled as integers. -/
inductive ScoreVal where
  | null
  | num (n : Int)
  | txt (s : String)
  | obj (value : Option Int) (display : Option String)
deriving DecidableEq

/-- One entry of a competition's `competitors` array, at the granularity
`_parse_game` reads it: `c["team"]["id"]`, `c["team"]["displayName"]`,
`c["winner"]`, `c["score"]`, `c["homeAway"]`. -/
structure Competitor where
  team_id : Option String
  team_displayName : Option String
  winner : Option Bool
  score : ScoreVal
  homeAway : Option String
deriving DecidableEq

/-- One entry of an event's `competitions` array: the `competitors` list
and `status.type.completed`. -/
structure Competition where
  competitors : List Competitor
  status_completed : Option Bool
deriving DecidableEq

/-- A raw ESPN event, at the granularity `_parse_game` reads it. -/
structure Event where
  id : Option String
  date : Option String
  competitions : List Competition
  season_year : Option Int
  season_type_field : Option Int
  season_type_alt : Option Int
  week_number : Option Int
  week_text : Option String
deriving DecidableEq

/-- `_safe_int` from `hf/espn.py`: Python `int(str)` with failure as
`None`, modelled by `String.toInt?`. -/
def safe_int (value : Option String) : Option Int :=
  value.bind (fun s => s.toInt?)

/-- `_extract_score` from `hf/espn.py`. -/
def extract_score (score_field : ScoreVal) : Option Int :=
  match score_field with
  | ScoreVal.null => Option.none
  | ScoreVal.num n => Option.some n
  | ScoreVal.txt s => safe_int (some s)
  | ScoreVal.obj value display =>
      match value with
      | Option.some v => Option.some v
      | Option.none =>
          match display with
          | Option.some d => safe_int (some d)
          | Option.none => Option.none

/-- Python `x or y` on optional integers: take `y` when `x` is `None` or
the falsy integer `0`. -/
def pyOrInt (x y : Option Int) : Option Int :=
  match x with
  | Option.none => y
  | Option.some v => if v = 0 then y else Option.some v

/-- `_parse_game` from `hf/espn.py`: normalize one raw event into a
`GameRec` from `team_id`'s perspective, or `none` when there are fewer
than two competitors or no side matches `team_id`. -/
def parse_game (team_id : String) (event : Event) : Option GameRec :=
  let comp := event.competitions.headD ⟨[], none⟩
  let competitors := comp.competitors
  if competitors.length < 2 then none
  else
    let sides :=
      competitors.foldl
        (fun (p : Option Competitor × Option Competitor) c =>
          if c.team_id = some team_id then (some c, p.2) else (p.1, some c))
        (none, none)
    match sides.1, sides.2 with
    | Option.none, _ => none
    | _, Option.none => none
    | Option.some team_side, Option.some opp_side =>
      let completed := comp.status_completed.getD false
      let team_score := extract_score team_side.score
      let opp_score := extract_score opp_side.score
      let result : Option String :=
        if completed then
          if team_side.winner = some true then some "W"
          else if opp_side.winner = some true then some "L"
          else
            match team_score, opp_score with
            | Option.some ts, Option.some os =>
                some (if ts > os then "W" else if ts < os then "L" else "T")
            | _, _ => none
        else none
      some
        { event_id := event.id
          date := event.date
          completed := completed
          season := event.season_year
          season_type := pyOrInt event.season_type_field event.season_type_alt
          week := event.week_number
          week_text := event.week_text
          is_home := team_side.homeAway = some "home"
          team_id := team_id
          team_score := team_score
          opp_id := opp_side.team_id
          opp_name := opp_side.team_displayName
          opp_score := opp_score
          team_result := result }

/-- The date sort key `lambda r: r.get("date") or ""` of
`get_team_schedule`. -/
def dateKey (r : GameRec) : String := r.date.getD ""

/-- `get_team_schedule` from `hf/espn.py`: fetch the regular-season
(type 2) and postseason (type 3) partitions independently — a failed
partition is skipped (`except Exception: continue`) — parse each event,
drop unparseable ones, and sort ascending by date string. -/
def get_team_schedule (fetch : String → Int → Int → Except Unit (List Event))
    (team_id : String) (season : Int) : List GameRec :=
  let parsed :=
    [2, 3].foldl
      (fun acc season_type =>
        match fetch team_id season season_type with
        | Except.error _ => acc
        | Except.ok events =>
            events.foldl
              (fun acc ev =>
                match parse_game team_id ev with
                | Option.some row => acc ++ [row]
                | Option.none => acc)
              acc)
      []
  sortByKey dateKey parsed

/-- The full pipeline: `compute_honolulu_flu` using the ESPN provider, as
`hf/flu.py` imports it. -/
def compute_honolulu_flu_espn (fetch : String → Int → Int → Except Unit (List Event))
    (pd : String → Option Int) (seasons : List Int) (play_mode : PlayMode)
    (follow_mode : FollowMode) (subject_team_id : String) : List GameRow :=
  compute_honolulu_flu (get_team_schedule fetch) pd seasons play_mode
    follow_mode subject_team_id

/-- `summarize_percentage` from `hf/flu.py`; the Python float percentage is
modelled as an exact rational. -/
def summarize_percentage (rows : List GameRow) : Nat × Nat × Option ℚ :=
  let considered := rows.filter (fun r => r.honolulu_flu_loss.isSome)
  let total := considered.length
  let losses := (considered.filter (fun r => r.honolulu_flu_loss = some true)).length
  (losses, total,
    if total > 0 then some ((losses : ℚ) / (total : ℚ) * 100) else none)

/-- The qualification test of the per-game loop of `compute_honolulu_flu`:
the game is completed, and under play mode `beat` the subject won. -/
def qualifies (play_mode : PlayMode) (g : GameRec) : Bool :=
  g.completed && !(decide (play_mode = PlayMode.beat ∧ g.team_result ≠ some "W"))

/-- The contribution of one season-type partition to `get_team_schedule`:
empty on a fetch failure, otherwise the parseable events. -/
def partitionGames (fetch : String → Int → Int → Except Unit (List Event))
    (team_id : String) (season season_type : Int) : List GameRec :=
  match fetch team_id season season_type with
  | Except.error _ => []
  | Except.ok events => events.filterMap (parse_game team_id)

/-! ## Concrete sample data used by witnesses and counterexamples -/

/-- A fetch oracle whose every partition fails at the transport level. -/
def cxC1fetch : String → Int → Int → Except Unit (List Event) :=
  fun _ _ _ => Except.error ()

/-- A date parser that fails on every string. -/
def cxC1pd : String → Option Int := fun _ => none

/-- C2 data: a completed postseason win of the subject team. -/
def cxC2game : GameRec :=
  { event_id := some "e1", date := some "2024-01-20", completed := true,
    season := some 2023, season_type := some 3, week := none,
    week_text := some "Divisional Round", is_home := true, team_id := "8",
    team_score := some 31, opp_id := some "9", opp_name := some "X",
    opp_score := some 23, team_result := some "W" }

/-- C2 data: the opponent's next-season regular game with an unparsable
date string. -/
def cxC2bad : GameRec :=
  { event_id := some "e2", date := some "not-a-date", completed := false,
    season := some 2024, season_type := some 2, week := some 1,
    week_text := some "Week 1", is_home := true, team_id := "9",
    team_score := none, opp_id := some "12", opp_name := some "Y",
    opp_score := none, team_result := none }

/-- C2 data: the opponent's next-season regular game with a parsable
date. -/
def cxC2good : GameRec :=
  { event_id := some "e3", date := some "2024-09-08", completed := true,
    season := some 2024, season_type := some 2, week := some 1,
    week_text := some "Week 1", is_home := false, team_id := "9",
    team_score := some 20, opp_id := some "13", opp_name := some "Z",
    opp_score := some 27, team_result := some "L" }

/-- C2 date parser. -/
def cxC2pd : String → Option Int :=
  fun s => if s = "2024-01-20" then some 100
    else if s = "2024-09-08" then some 500 else none

/-- C2 schedule provider. -/
def cxC2sched : String → Int → List GameRec :=
  fun tid season =>
    if tid = "9" ∧ season = 2024 then [cxC2bad, cxC2good] else []

/-- C2 witness data: a single parsable opponent game. -/
def wC2n : GameRec :=
  { event_id := some "w1", date := some "d1", completed := true,
    season := some 2024, season_type := some 2, week := some 2,
    week_text := some "Week 2", is_home := true, team_id := "9",
    team_score := some 10, opp_id := some "12", opp_name := some "Y",
    opp_score := some 3, team_result := some "W" }

/-- C2 witness date parser. -/
def wC2pd : String → Option Int := fun s => if s = "d1" then some 5 else none

/-- C2 witness schedule. -/
def wC2sched : List GameRec := [wC2n]

/-- C3 data: a completed regular-season subject game. -/
def cxC3game : GameRec :=
  { event_id := some "e4", date := some "2024-11-03", completed := true,
    season := some 2024, season_type := some 2, week := some 9,
    week_text := some "Week 9", is_home := true, team_id := "8",
    team_score := some 24, opp_id := some "9", opp_name := some "X",
    opp_score := some 14, team_result := some "W" }

/-- C3 data: the opponent's next game, scheduled but not yet played, so it
carries no result. -/
def cxC3n : GameRec :=
  { event_id := some "e5", date := some "2024-11-10", completed := false,
    season := some 2024, season_type := some 2, week := some 10,
    week_text := some "Week 10", is_home := true, team_id := "9",
    team_score := none, opp_id := some "12", opp_name := some "Z",
    opp_score := none, team_result := none }

/-- C3 date parser. -/
def cxC3pd : String → Option Int :=
  fun s => if s = "2024-11-03" then some 1000
    else if s = "2024-11-10" then some 2000 else none

/-- C3 schedule provider. -/
def cxC3sched : String → Int → List GameRec :=
  fun tid season => if tid = "9" ∧ season = 2024 then [cxC3n] else []

/-- C3 witness data: a row whose opponent lost its follow-up game. -/
def wC3row : GameRow :=
  { season := 2024, week := some 5, week_label := some "Week 5",
    date := "2024-10-06", is_home := true, opp_id := "10", opp_name := "X",
    lions_result := some "W", lions_team_score := some 30,
    lions_opp_score := some 20, opp_next_date := some "2024-10-13",
    opp_next_week := some 6, opp_next_week_label := some "Week 6",
    opp_next_result := some "L", opp_next_opp_name := some "Y",
    opp_next_team_score := some 10, opp_next_opp_score := some 24,
    opp_next_after_bye := false, opp_next_cross_season := false,
    opp_next_is_home := some true }

/-- C3 witness data: a subject game record. -/
def wC3g : GameRec := cxC3game

/-- C3 witness data: a resolved next game with a recorded result. -/
def wC3next : GameRec :=
  { cxC3n with
    completed := true
    team_score := some 7
    opp_score := some 21
    team_result := some "L" }

/-- C4 witness data: a postseason loss of the subject team. -/
def wC4g : GameRec :=
  { event_id := some "e6", date := some "2024-01-14", completed := true,
    season := some 2023, season_type := some 3, week := none,
    week_text := some "Wild Card", is_home := false, team_id := "8",
    team_score := some 17, opp_id := some "9", opp_name := some "X",
    opp_score := some 24, team_result := some "L" }

/-- C4 witness data: the opponent's following postseason game. -/
def wC4n : GameRec :=
  { event_id := some "e7", date := some "2024-01-21", completed := true,
    season := some 2023, season_type := some 3, week := none,
    week_text := some "Divisional Round", is_home := true, team_id := "9",
    team_score := some 10, opp_id := some "14", opp_name := some "W14",
    opp_score := some 31, team_result := some "L" }

/-- C4 witness date parser. -/
def wC4pd : String → Option Int :=
  fun s => if s = "2024-01-14" then some 100
    else if s = "2024-01-21" then some 200 else none

/-- C4 witness schedule provider. -/
def wC4sched : String → Int → List GameRec :=
  fun tid season => if tid = "9" ∧ season = 2023 then [wC4n] else []

/-- C4 data: a completed postseason win of the subject team. -/
def cxC4g : GameRec :=
  { event_id := some "c4e1", date := some "2024-01-20", completed := true,
    season := some 2023, season_type := some 3, week := none,
    week_text := some "Divisional Round", is_home := true, team_id := "8",
    team_score := some 31, opp_id := some "9", opp_name := some "X",
    opp_score := some 23, team_result := some "W" }

/-- C4 data: the opponent's next-season regular game with an unparsable
date string. -/
def cxC4bad : GameRec :=
  { event_id := some "c4e2", date := some "nodate", completed := false,
    season := some 2024, season_type := some 2, week := some 1,
    week_text := some "Week 1", is_home := true, team_id := "9",
    team_score := none, opp_id := some "12", opp_name := some "Y",
    opp_score := none, team_result := none }

/-- C4 data: the opponent's next-season regular game with a parsable
date. -/
def cxC4good : GameRec :=
  { event_id := some "c4e3", date := some "2024-09-08", completed := true,
    season := some 2024, season_type := some 2, week := some 1,
    week_text := some "Week 1", is_home := false, team_id := "9",
    team_score := some 20, opp_id := some "13", opp_name := some "Z",
    opp_score := some 27, team_result := some "L" }

/-- C4 date parser. -/
def cxC4pd : String → Option Int :=
  fun s => if s = "2024-01-20" then some 100
    else if s = "2024-09-08" then some 500 else none

/-- C4 schedule provider. -/
def cxC4sched : String → Int → List GameRec :=
  fun tid season =>
    if tid = "9" ∧ season = 2024 then [cxC4bad, cxC4good] else []

/-- C4 witness data (win branch): a postseason win of the subject team. -/
def wC4g2 : GameRec :=
  { event_id := some "c4e4", date := some "2024-01-14", completed := true,
    season := some 2023, season_type := some 3, week := none,
    week_text := some "Wild Card", is_home := true, team_id := "8",
    team_score := some 31, opp_id := some "9", opp_name := some "X",
    opp_score := some 17, team_result := some "W" }

/-- C4 witness data (win branch): the opponent's first regular-season game
of the following year. -/
def wC4r : GameRec :=
  { event_id := some "c4e5", date := some "2024-09-08", completed := true,
    season := some 2024, season_type := some 2, week := some 1,
    week_text := some "Week 1", is_home := true, team_id := "9",
    team_score := some 24, opp_id := some "13", opp_name := some "Z",
    opp_score := some 10, team_result := some "W" }

/-- C4 witness date parser (win branch). -/
def wC4pd2 : String → Option Int :=
  fun s => if s = "2024-01-14" then some 100
    else if s = "2024-09-08" then some 500 else none

/-- C4 witness schedule provider (win branch). -/
def wC4sched2 : String → Int → List GameRec :=
  fun tid season => if tid = "9" ∧ season = 2024 then [wC4r] else []

/-- C5 data: a completed regular-season subject game in week 17 whose
opponent has no remaining games this season. -/
def cxC5g : GameRec :=
  { event_id := some "c5e1", date := some "2024-12-29", completed := true,
    season := some 2024, season_type := some 2, week := some 17,
    week_text := some "Week 17", is_home := true, team_id := "8",
    team_score := some 24, opp_id := some "9", opp_name := some "X",
    opp_score := some 14, team_result := some "W" }

/-- C5 data: the opponent's next-season regular game with an unparsable
date string. -/
def cxC5bad : GameRec :=
  { event_id := some "c5e2", date := some "xdate", completed := false,
    season := some 2025, season_type := some 2, week := some 1,
    week_text := some "Week 1", is_home := true, team_id := "9",
    team_score := none, opp_id := some "12", opp_name := some "Y",
    opp_score := none, team_result := none }

/-- C5 data: the opponent's next-season regular game with a parsable
date. -/
def cxC5good : GameRec :=
  { event_id := some "c5e3", date := some "2025-09-07", completed := true,
    season := some 2025, season_type := some 2, week := some 1,
    week_text := some "Week 1", is_home := false, team_id := "9",
    team_score := some 20, opp_id := some "13", opp_name := some "Z",
    opp_score := some 27, team_result := some "L" }

/-- C5 date parser. -/
def cxC5pd : String → Option Int :=
  fun s => if s = "2024-12-29" then some 100
    else if s = "2025-09-07" then some 500 else none

/-- C5 schedule provider: the opponent has no same-season data, only the
two next-season games. -/
def cxC5sched : String → Int → List GameRec :=
  fun tid season =>
    if tid = "9" ∧ season = 2025 then [cxC5bad, cxC5good] else []

/-- C5 witness data (fallback branch): a completed regular-season subject
game in week 17. -/
def wC5g2 : GameRec :=
  { event_id := some "c5e4", date := some "2024-12-29", completed := true,
    season := some 2024, season_type := some 2, week := some 17,
    week_text := some "Week 17", is_home := true, team_id := "8",
    team_score := some 24, opp_id := some "9", opp_name := some "X",
    opp_score := some 14, team_result := some "W" }

/-- C5 witness data (fallback branch): the opponent's first regular-season
game of the following year. -/
def wC5r : GameRec :=
  { event_id := some "c5e5", date := some "2025-09-07", completed := true,
    season := some 2025, season_type := some 2, week := some 1,
    week_text := some "Week 1", is_home := true, team_id := "9",
    team_score := some 24, opp_id := some "13", opp_name := some "Z",
    opp_score := some 10, team_result := some "W" }

/-- C5 witness date parser (fallback branch). -/
def wC5pd2 : String → Option Int :=
  fun s => if s = "2024-12-29" then some 1000
    else if s = "2025-09-07" then some 5000 else none

/-- C5 witness schedule provider (fallback branch). -/
def wC5sched2 : String → Int → List GameRec :=
  fun tid season => if tid = "9" ∧ season = 2025 then [wC5r] else []

/-- C5 witness data: a completed regular-season subject game in week 9. -/
def wC5g : GameRec :=
  { event_id := some "e8", date := some "2024-11-03", completed := true,
    season := some 2024, season_type := some 2, week := some 9,
    week_text := some "Week 9", is_home := true, team_id := "8",
    team_score := some 24, opp_id := some "9", opp_name := some "X",
    opp_score := some 14, team_result := some "W" }

/-- C5 witness data: the opponent's later week-11 game (week 10 is a
bye). -/
def wC5m : GameRec :=
  { event_id := some "e9", date := some "2024-11-17", completed := true,
    season := some 2024, season_type := some 2, week := some 11,
    week_text := some "Week 11", is_home := false, team_id := "9",
    team_score := some 13, opp_id := some "15", opp_name := some "V",
    opp_score := some 20, team_result := some "L" }

/-- C5 witness date parser. -/
def wC5pd : String → Option Int :=
  fun s => if s = "2024-11-03" then some 1000
    else if s = "2024-11-17" then some 3000 else none

/-- C5 witness schedule provider. -/
def wC5sched : String → Int → List GameRec :=
  fun tid season => if tid = "9" ∧ season = 2024 then [wC5m] else []

/-- C6 data: a postseason win of the subject team. -/
def cxC6g : GameRec :=
  { event_id := some "e10", date := some "2024-01-20", completed := true,
    season := some 2023, season_type := some 3, week := none,
    week_text := some "Divisional Round", is_home := true, team_id := "8",
    team_score := some 31, opp_id := some "9", opp_name := some "X",
    opp_score := some 23, team_result := some "W" }

/-- C6 data: the opponent's next-season regular game whose own `season`
field is missing. -/
def cxC6n : GameRec :=
  { event_id := some "e11", date := some "2025-09-07", completed := true,
    season := none, season_type := some 2, week := some 1,
    week_text := some "Week 1", is_home := true, team_id := "9",
    team_score := some 20, opp_id := some "12", opp_name := some "Y",
    opp_score := some 10, team_result := some "W" }

/-- C6 date parser. -/
def cxC6pd : String → Option Int :=
  fun s => if s = "2024-01-20" then some 100
    else if s = "2025-09-07" then some 500 else none

/-- C6 schedule provider. -/
def cxC6sched : String → Int → List GameRec :=
  fun tid season => if tid = "9" ∧ season = 2025 then [cxC6n] else []

/-- C7 witness data: one row with a flu verdict of `true`. -/
def wC7row : GameRow := wC3row

/-- C9 witness data: a completed subject game whose opponent has an empty
schedule. -/
def wC9g : GameRec := cxC3game

/-- C9 witness date parser. -/
def wC9pd : String → Option Int := fun _ => none

/-- C10 data: a subject game whose own date string does not parse. -/
def cxC10g : GameRec :=
  { event_id := some "e12", date := some "BAD", completed := true,
    season := some 2024, season_type := some 2, week := some 17,
    week_text := some "Week 17", is_home := true, team_id := "8",
    team_score := some 24, opp_id := some "9", opp_name := some "X",
    opp_score := some 14, team_result := some "W" }

/-- C10 data: the opponent's later parsable game whose `season` field is
missing, so bye detection skips it. -/
def cxC10m : GameRec :=
  { event_id := some "e13", date := some "2025-01-05", completed := true,
    season := none, season_type := some 2, week := some 19,
    week_text := some "Week 19", is_home := true, team_id := "9",
    team_score := some 3, opp_id := some "12", opp_name := some "Y",
    opp_score := some 30, team_result := some "L" }

/-- C10 date parser: the subject's date does not parse. -/
def cxC10pd : String → Option Int :=
  fun s => if s = "2025-01-05" then some 9000 else none

/-- C10 schedule provider. -/
def cxC10sched : String → Int → List GameRec :=
  fun tid season => if tid = "9" ∧ season = 2024 then [cxC10m] else []

/-- C10 witness data: a subject game with an unparsable date in week 9. -/
def wC10g : GameRec :=
  { cxC10g with
    week := some 9
    week_text := some "Week 9" }

/-- C10 witness data: the opponent's later same-season game in week 12. -/
def wC10m : GameRec :=
  { event_id := some "e14", date := some "okdate", completed := true,
    season := some 2024, season_type := some 2, week := some 12,
    week_text := some "Week 12", is_home := true, team_id := "9",
    team_score := some 3, opp_id := some "12", opp_name := some "Y",
    opp_score := some 30, team_result := some "L" }

/-- C10 witness date parser. -/
def wC10pd : String → Option Int :=
  fun s => if s = "okdate" then some 50 else none

/-- C10 witness schedule provider. -/
def wC10sched : String → Int → List GameRec :=
  fun tid season => if tid = "9" ∧ season = 2024 then [wC10m] else []

/-- C8 witness data: a raw event with two competitors. -/
def wC8ev : Event :=
  { id := some "401", date := some "2024-01-21",
    competitions :=
      [{ competitors :=
          [{ team_id := some "8", team_displayName := some "Detroit Lions",
             winner := some true, score := ScoreVal.num 31,
             homeAway := some "home" },
           { team_id := some "9", team_displayName := some "X",
             winner := some false, score := ScoreVal.num 23,
             homeAway := some "away" }],
         status_completed := some true }],
    season_year := some 2023, season_type_field := some 3,
    season_type_alt := none, week_number := none,
    week_text := some "Divisional Round" }

/-- C8 witness fetch oracle: the regular-season partition fails, the
postseason partition returns one event. -/
def wC8fetch : String → Int → Int → Except Unit (List Event) :=
  fun _ _ st => if st = 2 then Except.error () else Except.ok [wC8ev]

/-! ## Helper lemmas about the stable key sort -/

theorem mem_insertByKey {α β : Type} [LinearOrder β] (key : α → β) (x a : α) :
    ∀ l : List α, (a ∈ insertByKey key x l ↔ a = x ∨ a ∈ l) := by
  intro l
  induction l with
  | nil => simp [insertByKey]
  | cons y ys ih =>
      simp only [insertByKey]
      by_cases h : key y ≤ key x
      · simp only [if_pos h, List.mem_cons, ih]
        tauto
      · simp only [if_neg h, List.mem_cons]

theorem pairwise_insertByKey {α β : Type} [LinearOrder β] (key : α → β) (x : α) :
    ∀ l : List α, List.Pairwise (fun a b => key a ≤ key b) l →
      List.Pairwise (fun a b => key a ≤ key b) (insertByKey key x l) := by
  intro l
  induction l with
  | nil => intro _; simp [insertByKey]
  | cons y ys ih =>
      intro h
      rcases List.pairwise_cons.1 h with ⟨hy, hys⟩
      simp only [insertByKey]
      by_cases hle : key y ≤ key x
      · rw [if_pos hle]
        refine List.pairwise_cons.2 ⟨?_, ih hys⟩
        intro b hb
        rcases (mem_insertByKey key x b ys).1 hb with rfl | hb
        · exact hle
        · exact hy b hb
      · rw [if_neg hle]
        push_neg at hle
        refine List.pairwise_cons.2 ⟨?_, h⟩
        intro b hb
        rcases List.mem_cons.1 hb with rfl | hb
        · exact le_of_lt hle
        · exact le_trans (le_of_lt hle) (hy b hb)

theorem mem_sortByKey_aux {α β : Type} [LinearOrder β] (key : α → β) (a : α) :
    ∀ (l acc : List α),
      (a ∈ l.foldl (fun acc x => insertByKey key x acc) acc ↔ a ∈ acc ∨ a ∈ l) := by
  intro l
  induction l with
  | nil => intro acc; simp
  | cons x xs ih =>
      intro acc
      simp only [List.foldl_cons, ih, mem_insertByKey, List.mem_cons]
      tauto

theorem mem_sortByKey {α β : Type} [LinearOrder β] (key : α → β) (a : α)
    (l : List α) : a ∈ sortByKey key l ↔ a ∈ l := by
  unfold sortByKey
  rw [mem_sortByKey_aux]
  simp

theorem pairwise_sortByKey_aux {α β : Type} [LinearOrder β] (key : α → β) :
    ∀ (l acc : List α), List.Pairwise (fun a b => key a ≤ key b) acc →
      List.Pairwise (fun a b => key a ≤ key b)
        (l.foldl (fun acc x => insertByKey key x acc) acc) := by
  intro l
  induction l with
  | nil => intro acc h; simpa using h
  | cons x xs ih =>
      intro acc h
      simp only [List.foldl_cons]
      exact ih _ (pairwise_insertByKey key x acc h)

theorem pairwise_sortByKey {α β : Type} [LinearOrder β] (key : α → β)
    (l : List α) :
    List.Pairwise (fun a b => key a ≤ key b) (sortByKey key l) :=
  pairwise_sortByKey_aux key l [] (List.Pairwise.nil)

theorem sortByKey_eq_nil {α β : Type} [LinearOrder β] (key : α → β)
    (l : List α) : sortByKey key l = [] ↔ l = [] := by
  constructor
  · intro h
    cases l with
    | nil => rfl
    | cons a rest =>
        have ha : a ∈ sortByKey key (a :: rest) :=
          (mem_sortByKey key a _).2 (List.mem_cons_self a rest)
        rw [h] at ha
        exact absurd ha (List.not_mem_nil a)
  · intro h; subst h; rfl

theorem sortByKey_head_min {α β : Type} [LinearOrder β] (key : α → β)
    (l : List α) (r : α) (h : (sortByKey key l).head? = some r) :
    r ∈ l ∧ ∀ m ∈ l, key r ≤ key m := by
  have hpw := pairwise_sortByKey key l
  cases hs : sortByKey key l with
  | nil => rw [hs] at h; simp at h
  | cons a rest =>
      rw [hs] at h
      simp only [List.head?_cons, Option.some.injEq] at h
      subst h
      rw [hs] at hpw
      rcases List.pairwise_cons.1 hpw with ⟨ha, _⟩
      constructor
      · have hr : a ∈ sortByKey key l := by
          rw [hs]; exact List.mem_cons_self _ _
        exact (mem_sortByKey key a l).1 hr
      · intro m hm
        have hm' : m ∈ sortByKey key l := (mem_sortByKey key m l).2 hm
        rw [hs] at hm'
        rcases List.mem_cons.1 hm' with rfl | hm'
        · exact le_refl _
        · exact ha m hm'

theorem sortByKey_head_isSome {α β : Type} [LinearOrder β] (key : α → β)
    (l : List α) : (sortByKey key l).head?.isSome = true ↔ l ≠ [] := by
  rw [List.head?_isSome]
  exact not_congr (sortByKey_eq_nil key l)

theorem sortByKey_head_mem {α β : Type} [LinearOrder β] (key : α → β)
    (l : List α) (r : α) (h : (sortByKey key l).head? = some r) : r ∈ l :=
  (sortByKey_head_min key l r h).1

/-! ## Helper lemmas about the next-game pick loops -/

theorem pickFiltStep_spec (pd : String → Option Int) (af : Int)
    (s? t? : Option Int) (best : Option (Int × GameRec)) (row : GameRec) :
    (∃ ts, isCand pd af s? t? row ts ∧
      (((best = none ∨ ∃ b, best = some b ∧ ts < b.1) ∧
          pickFiltStep pd af s? t? best row = some (ts, row)) ∨
        (∃ b, best = some b ∧ b.1 ≤ ts ∧
          pickFiltStep pd af s? t? best row = best))) ∨
    ((∀ t, ¬ isCand pd af s? t? row t) ∧
      pickFiltStep pd af s? t? best row = best) := by
  cases h1 : optFilterNe s? row.season with
  | true =>
      exact Or.inr ⟨fun t ht => by simp [isCand, h1] at ht,
        by simp [pickFiltStep, h1]⟩
  | false =>
    cases h2 : optFilterNe t? row.season_type with
    | true =>
        exact Or.inr ⟨fun t ht => by simp [isCand, h2] at ht,
          by simp [pickFiltStep, h1, h2]⟩
    | false =>
      cases hp : parse_iso pd row.date with
      | none =>
          exact Or.inr ⟨fun t ht => by simp [isCand, hp] at ht,
            by simp [pickFiltStep, h1, h2, hp]⟩
      | some ts =>
        by_cases hle : ts ≤ af
        · refine Or.inr ⟨fun t ht => ?_, by simp [pickFiltStep, h1, h2, hp, hle]⟩
          rcases ht with ⟨-, -, hpt, hat⟩
          rw [hp] at hpt
          simp only [Option.some.injEq] at hpt
          omega
        · have hcand : isCand pd af s? t? row ts := ⟨h1, h2, hp, by omega⟩
          cases best with
          | none =>
              exact Or.inl ⟨ts, hcand, Or.inl ⟨Or.inl rfl,
                by simp [pickFiltStep, h1, h2, hp, hle]⟩⟩
          | some b =>
            by_cases hlt : ts < b.1
            · exact Or.inl ⟨ts, hcand, Or.inl ⟨Or.inr ⟨b, rfl, hlt⟩,
                by simp [pickFiltStep, h1, h2, hp, hle, hlt]⟩⟩
            · exact Or.inl ⟨ts, hcand, Or.inr ⟨b, rfl, by omega,
                by simp [pickFiltStep, h1, h2, hp, hle, hlt]⟩⟩

theorem pickFiltStep_eq_none_iff (pd : String → Option Int) (af : Int)
    (s? t? : Option Int) (best : Option (Int × GameRec)) (row : GameRec) :
    pickFiltStep pd af s? t? best row = none ↔
      best = none ∧ ∀ t, ¬ isCand pd af s? t? row t := by
  constructor
  · intro h
    rcases pickFiltStep_spec pd af s? t? best row with
      ⟨ts, hcand, ⟨-, heq⟩ | ⟨b, hb, -, heq⟩⟩ | ⟨hno, heq⟩
    · rw [heq] at h; exact absurd h (by simp)
    · rw [heq] at h; rw [h] at hb; exact absurd hb (by simp)
    · rw [heq] at h
      exact ⟨h, fun t ht => hno t ht⟩
  · rintro ⟨hb, hno⟩
    rcases pickFiltStep_spec pd af s? t? best row with
      ⟨ts, hcand, -⟩ | ⟨-, heq⟩
    · exact absurd hcand (hno ts)
    · rw [heq]; exact hb

theorem pickFiltLoop_none_iff (pd : String → Option Int) (af : Int)
    (s? t? : Option Int) :
    ∀ (l : List GameRec) (best : Option (Int × GameRec)),
      pickFiltLoop pd af s? t? best l = none ↔
        best = none ∧ ∀ r ∈ l, ∀ t, ¬ isCand pd af s? t? r t := by
  intro l
  induction l with
  | nil =>
      intro best
      simp [pickFiltLoop]
  | cons row rest ih =>
      intro best
      rw [pickFiltLoop, ih, pickFiltStep_eq_none_iff]
      constructor
      · rintro ⟨⟨hb, hrow⟩, hrest⟩
        refine ⟨hb, ?_⟩
        intro r hr t
        rcases List.mem_cons.1 hr with rfl | hr
        · exact hrow t
        · exact hrest r hr t
      · rintro ⟨hb, hall⟩
        exact ⟨⟨hb, fun t => hall row (List.mem_cons_self _ _) t⟩,
          fun r hr t => hall r (List.mem_cons_of_mem _ hr) t⟩

theorem pickFiltLoop_sound (pd : String → Option Int) (af : Int)
    (s? t? : Option Int) :
    ∀ (l : List GameRec) (best : Option (Int × GameRec)) (p : Int × GameRec),
      pickFiltLoop pd af s? t? best l = some p →
        best = some p ∨ (p.2 ∈ l ∧ isCand pd af s? t? p.2 p.1) := by
  intro l
  induction l with
  | nil =>
      intro best p h
      exact Or.inl h
  | cons row rest ih =>
      intro best p h
      rw [pickFiltLoop] at h
      rcases ih (pickFiltStep pd af s? t? best row) p h with hstep | ⟨hmem, hcand⟩
      · rcases pickFiltStep_spec pd af s? t? best row with
          ⟨ts, hcand, ⟨-, heq⟩ | ⟨b, hb, -, heq⟩⟩ | ⟨-, heq⟩
        · rw [heq] at hstep
          obtain rfl := Option.some.inj hstep
          exact Or.inr ⟨List.mem_cons_self _ _, hcand⟩
        · rw [heq] at hstep; exact Or.inl hstep
        · rw [heq] at hstep; exact Or.inl hstep
      · exact Or.inr ⟨List.mem_cons_of_mem _ hmem, hcand⟩

theorem pickFiltLoop_le_best (pd : String → Option Int) (af : Int)
    (s? t? : Option Int) :
    ∀ (l : List GameRec) (best : Option (Int × GameRec)) (p b : Int × GameRec),
      pickFiltLoop pd af s? t? best l = some p → best = some b → p.1 ≤ b.1 := by
  intro l
  induction l with
  | nil =>
      intro best p b h hb
      subst hb
      obtain rfl := Option.some.inj h
      exact le_refl _
  | cons row rest ih =>
      intro best p b h hb
      subst hb
      rw [pickFiltLoop] at h
      rcases pickFiltStep_spec pd af s? t? (some b) row with
        ⟨ts, -, ⟨hpre, heq⟩ | ⟨b', hb', hble, heq⟩⟩ | ⟨-, heq⟩
      · rcases hpre with hnone | ⟨b', hb', hlt⟩
        · exact absurd hnone (by simp)
        · obtain rfl := Option.some.inj hb'
          rw [heq] at h
          have h1 := ih (some (ts, row)) p (ts, row) h rfl
          simp only at h1
          omega
      · obtain rfl := Option.some.inj hb'
        rw [heq] at h
        have h1 := ih (some b) p b h rfl
        omega
      · rw [heq] at h
        exact ih (some b) p b h rfl

theorem pickFiltLoop_min (pd : String → Option Int) (af : Int)
    (s? t? : Option Int) :
    ∀ (l : List GameRec) (best : Option (Int × GameRec)) (p : Int × GameRec),
      pickFiltLoop pd af s? t? best l = some p →
        ∀ r ∈ l, ∀ t, isCand pd af s? t? r t → p.1 ≤ t := by
  intro l
  induction l with
  | nil =>
      intro best p _ r hr
      exact absurd hr (List.not_mem_nil r)
  | cons row rest ih =>
      intro best p h r hr t hc
      rw [pickFiltLoop] at h
      rcases List.mem_cons.1 hr with rfl | hr
      · rcases pickFiltStep_spec pd af s? t? best r with
          ⟨ts, hcand, hcase⟩ | ⟨hno, -⟩
        · have hts : t = ts := by
            rcases hc with ⟨-, -, h1, -⟩
            rcases hcand with ⟨-, -, h2, -⟩
            rw [h1] at h2
            exact Option.some.inj h2
          subst hts
          rcases hcase with ⟨-, heq⟩ | ⟨b, hb, hble, heq⟩
          · rw [heq] at h
            exact pickFiltLoop_le_best pd af s? t? rest _ p (t, r) h rfl
          · rw [heq, hb] at h
            have h1 := pickFiltLoop_le_best pd af s? t? rest _ p b h rfl
            omega
        · exact absurd hc (hno t)
      · exact ih (pickFiltStep pd af s? t? best row) p h r hr t hc

theorem pick_with_filters_none_iff (pd : String → Option Int)
    (sched : List GameRec) (af : Int) (s? t? : Option Int) :
    pick_next_game_after_with_filters pd sched af s? t? = none ↔
      ∀ r ∈ sched, ∀ t, ¬ isCand pd af s? t? r t := by
  unfold pick_next_game_after_with_filters
  rw [Option.map_eq_none', pickFiltLoop_none_iff]
  simp

theorem pick_with_filters_spec_some (pd : String → Option Int)
    (sched : List GameRec) (af : Int) (s? t? : Option Int) (n : GameRec)
    (h : pick_next_game_after_with_filters pd sched af s? t? = some n) :
    ∃ t, n ∈ sched ∧ isCand pd af s? t? n t ∧
      ∀ m ∈ sched, ∀ tm, isCand pd af s? t? m tm → t ≤ tm := by
  unfold pick_next_game_after_with_filters at h
  rcases Option.map_eq_some'.1 h with ⟨p, hp, rfl⟩
  rcases pickFiltLoop_sound pd af s? t? sched none p hp with hnone | ⟨hm, hc⟩
  · exact absurd hnone (by simp)
  · exact ⟨p.1, hm, hc,
      fun m hmem tm hcm => pickFiltLoop_min pd af s? t? sched none p hp m hmem tm hcm⟩

theorem pickFiltStep_unparsable (pd : String → Option Int) (af : Int)
    (s? t? : Option Int) (best : Option (Int × GameRec)) (row : GameRec)
    (hp : parse_iso pd row.date = none) :
    pickFiltStep pd af s? t? best row = best := by
  unfold pickFiltStep
  split
  · rfl
  · split
    · rfl
    · rw [hp]

theorem pickFiltLoop_filter_parsable (pd : String → Option Int) (af : Int)
    (s? t? : Option Int) :
    ∀ (l : List GameRec) (best : Option (Int × GameRec)),
      pickFiltLoop pd af s? t? best
        (l.filter (fun r => (parse_iso pd r.date).isSome)) =
      pickFiltLoop pd af s? t? best l := by
  intro l
  induction l with
  | nil => intro best; rfl
  | cons row rest ih =>
      intro best
      cases hp : parse_iso pd row.date with
      | none =>
          rw [pickFiltLoop, pickFiltStep_unparsable pd af s? t? best row hp]
          rw [← ih best]
          congr 1
          simp [List.filter_cons, hp]
      | some ts =>
          rw [pickFiltLoop]
          rw [← ih (pickFiltStep pd af s? t? best row)]
          have hkeep : (row :: rest).filter
              (fun r => (parse_iso pd r.date).isSome) =
              row :: rest.filter (fun r => (parse_iso pd r.date).isSome) := by
            simp [List.filter_cons, hp]
          rw [hkeep, pickFiltLoop]

theorem pick_with_filters_filter_parsable (pd : String → Option Int)
    (sched : List GameRec) (af : Int) (s? t? : Option Int) :
    pick_next_game_after_with_filters pd
        (sched.filter (fun r => (parse_iso pd r.date).isSome)) af s? t? =
      pick_next_game_after_with_filters pd sched af s? t? := by
  unfold pick_next_game_after_with_filters
  rw [pickFiltLoop_filter_parsable]

theorem pickAfterStep_eq_filtStep (pd : String → Option Int) (af : Int)
    (best : Option (Int × GameRec)) (row : GameRec) :
    pickAfterStep pd af best row = pickFiltStep pd af none none best row := by
  unfold pickAfterStep pickFiltStep optFilterNe
  cases hp : parse_iso pd row.date with
  | none => simp
  | some ts =>
      simp only [Bool.false_eq_true, if_false]
      by_cases h : ts > af
      · rw [if_pos h, if_neg (by omega : ¬ ts ≤ af)]
      · rw [if_neg h, if_pos (by omega : ts ≤ af)]

theorem pickAfterLoop_eq_filtLoop (pd : String → Option Int) (af : Int) :
    ∀ (l : List GameRec) (best : Option (Int × GameRec)),
      pickAfterLoop pd af best l = pickFiltLoop pd af none none best l := by
  intro l
  induction l with
  | nil => intro best; rfl
  | cons row rest ih =>
      intro best
      rw [pickAfterLoop, pickFiltLoop, pickAfterStep_eq_filtStep, ih]

theorem pick_next_game_after_eq_filters (pd : String → Option Int)
    (sched : List GameRec) (af : Int) :
    pick_next_game_after pd sched af =
      pick_next_game_after_with_filters pd sched af none none := by
  unfold pick_next_game_after pick_next_game_after_with_filters
  rw [pickAfterLoop_eq_filtLoop]

theorem isCand_none_none (pd : String → Option Int) (af : Int) (r : GameRec)
    (t : Int) :
    isCand pd af none none r t ↔ parse_iso pd r.date = some t ∧ af < t := by
  unfold isCand optFilterNe
  simp

/-! ## Claim theorems -/

/-- Claim C1 (amended): a total transport failure while fetching the
subject team's schedule is swallowed inside `get_team_schedule`
(`except Exception: continue` on each partition), so
`compute_honolulu_flu` returns the empty row list — presented as zero
games — and no explicit error identifying the season and team reaches the
caller. -/
theorem claim_C1 (fetch : String → Int → Int → Except Unit (List Event))
    (pd : String → Option Int) (seasons : List Int) (play_mode : PlayMode)
    (follow_mode : FollowMode) (subject_team_id : String)
    (hfail : ∀ season season_type,
      fetch subject_team_id season season_type = Except.error ()) :
    compute_honolulu_flu_espn fetch pd seasons play_mode follow_mode
      subject_team_id = [] := by
  have hsched : ∀ season,
      get_team_schedule fetch subject_team_id season = [] := by
    intro season
    unfold get_team_schedule
    rw [show ([2, 3] : List Int) = 2 :: 3 :: [] from rfl]
    rw [List.foldl_cons, hfail season 2]
    rw [List.foldl_cons, hfail season 3]
    rfl
  have hmain : ∀ ss : List Int,
      compute_honolulu_flu (get_team_schedule fetch) pd ss play_mode
        follow_mode subject_team_id = [] := by
    intro ss
    induction ss with
    | nil => rfl
    | cons s rest ih =>
        unfold compute_honolulu_flu at ih ⊢
        rw [List.foldl_cons, hsched s]
        exact ih
  exact hmain seasons

/-- Claim C1 counterexample: with a fetch oracle failing on every
partition, the pipeline returns the empty row list instead of failing
with an explicit error — refuting the claim that a total fetch failure
for the subject team propagates as an explicit failure and never yields
an empty result presented as zero games. -/
theorem claim_C1_counterexample :
    compute_honolulu_flu_espn cxC1fetch cxC1pd [2024] PlayMode.play
      FollowMode.week "8" = [] := by decide

/-- Claim C1 witness: the amended theorem applied to the concrete
all-failing fetch oracle. -/
theorem claim_C1_witness :
    compute_honolulu_flu_espn cxC1fetch cxC1pd [2024, 2025] PlayMode.beat
      FollowMode.game "8" = [] :=
  claim_C1 cxC1fetch cxC1pd [2024, 2025] PlayMode.beat FollowMode.game "8"
    (fun _ _ => rfl)

/-- Claim C2 (amended): in the earliest-after selections
(`_pick_next_game_after` and `_pick_next_game_after_with_filters`) a
record with an unparsable date is never chosen and never blocks a
parsable candidate, and "earliest" is the strict minimum of parsed
timestamps; in the cross-season chronologically-first fallbacks, however,
records are ordered by parsed-timestamp-defaulting-to-0, so an
unparsable-dated record sorts first and can be chosen ahead of parsable
candidates. -/
theorem claim_C2 (pd : String → Option Int) (sched : List GameRec) (af : Int)
    (s? t? : Option Int) :
    (pick_next_game_after_with_filters pd
        (sched.filter (fun r => (parse_iso pd r.date).isSome)) af s? t? =
      pick_next_game_after_with_filters pd sched af s? t?) ∧
    (∀ n, pick_next_game_after_with_filters pd sched af s? t? = some n →
      ∃ t, parse_iso pd n.date = some t ∧ af < t ∧
        ∀ m ∈ sched, ∀ tm, isCand pd af s? t? m tm → t ≤ tm) ∧
    (pick_next_game_after pd sched af =
      pick_next_game_after_with_filters pd sched af none none) ∧
    (∀ r, (sortByKey (fallbackKey pd) sched).head? = some r →
      r ∈ sched ∧ ∀ m ∈ sched, fallbackKey pd r ≤ fallbackKey pd m) := by
  refine ⟨pick_with_filters_filter_parsable pd sched af s? t?, ?_,
    pick_next_game_after_eq_filters pd sched af, ?_⟩
  · intro n hn
    rcases pick_with_filters_spec_some pd sched af s? t? n hn with
      ⟨t, hmem, hcand, hmin⟩
    exact ⟨t, hcand.2.2.1, hcand.2.2.2, hmin⟩
  · intro r hr
    exact sortByKey_head_min (fallbackKey pd) sched r hr

/-- Claim C2 counterexample: in the cross-season fallback after a
postseason win, the resolution chooses the record whose date does not
parse, even though a parsable candidate is present in the same pool —
refuting "never chosen and never prevents another parsable candidate
from being chosen" for the fallback branches. -/
theorem claim_C2_counterexample :
    (linkGame cxC2sched cxC2pd 2023 FollowMode.week cxC2game).1 =
        some cxC2bad ∧
    parse_iso cxC2pd cxC2bad.date = none ∧
    cxC2good ∈ cxC2sched "9" 2024 ∧
    parse_iso cxC2pd cxC2good.date = some 500 := by decide

/-- Claim C2 witness: the earliest-after characterization evaluated on a
concrete one-game schedule. -/
theorem claim_C2_witness :
    ∃ t, parse_iso wC2pd wC2n.date = some t ∧ (0 : Int) < t ∧
      ∀ m ∈ wC2sched, ∀ tm, isCand wC2pd 0 none none m tm → t ≤ tm :=
  (claim_C2 wC2pd wC2sched 0 none none).2.1 wC2n (by decide)

/-- Claim C3 (amended): for every row, the flu verdict is non-null iff
`nextResult` is non-null, and when non-null it is `true` exactly when
`nextResult = "L"`; a non-null `nextResult` implies a next-game record
was resolved, but a resolved record whose own result is missing (an
unplayed follow-up) yields a null `nextResult` and a null verdict. -/
theorem claim_C3 :
    (∀ row : GameRow,
      (row.honolulu_flu_loss.isSome = row.opp_next_result.isSome) ∧
      ∀ b, row.honolulu_flu_loss = some b →
        (b = true ↔ row.opp_next_result = some "L")) ∧
    (∀ (season : Int) (g : GameRec) (next_row : Option GameRec)
        (after_bye cross_season : Bool),
      (emitRow season g next_row after_bye
          cross_season).opp_next_result.isSome = true →
      next_row.isSome = true) := by
  constructor
  · intro row
    constructor
    · unfold GameRow.honolulu_flu_loss
      cases row.opp_next_result <;> rfl
    · intro b hb
      unfold GameRow.honolulu_flu_loss at hb
      cases hres : row.opp_next_result with
      | none => rw [hres] at hb; exact absurd hb (by simp)
      | some res =>
          rw [hres] at hb
          simp only [Option.some.injEq] at hb
          subst hb
          simp
  · intro season g next_row after_bye cross_season h
    cases next_row with
    | none => exact absurd h (by simp [emitRow])
    | some n => rfl

/-- Claim C3 counterexample: a next-game record is resolved (the
opponent's scheduled but unplayed next game), yet the emitted row has a
null `nextResult` and a null flu verdict — refuting the claimed pairwise
equivalence of "record resolved" with "nextResult non-null". -/
theorem claim_C3_counterexample :
    ((linkGame cxC3sched cxC3pd 2024 FollowMode.game cxC3game).1).isSome =
        true ∧
    (emitRow 2024 cxC3game
        (linkGame cxC3sched cxC3pd 2024 FollowMode.game cxC3game).1
        (linkGame cxC3sched cxC3pd 2024 FollowMode.game cxC3game).2.1
        (linkGame cxC3sched cxC3pd 2024 FollowMode.game
          cxC3game).2.2).opp_next_result = none ∧
    (emitRow 2024 cxC3game
        (linkGame cxC3sched cxC3pd 2024 FollowMode.game cxC3game).1
        (linkGame cxC3sched cxC3pd 2024 FollowMode.game cxC3game).2.1
        (linkGame cxC3sched cxC3pd 2024 FollowMode.game
          cxC3game).2.2).honolulu_flu_loss = none := by decide

/-- Claim C3 witness: the amended theorem applied to a concrete row with
`nextResult = "L"` and to a concrete resolved record. -/
theorem claim_C3_witness :
    (true = true ↔ wC3row.opp_next_result = some "L") ∧
    (Option.some wC3next).isSome = true :=
  ⟨(claim_C3.1 wC3row).2 true (by decide),
   claim_C3.2 2024 wC3g (some wC3next) false false (by decide)⟩

/-- Counting after a nested filter whose inner predicate implies the
outer one equals counting on the original list. -/
theorem filterFilterLength {α : Type} (p q : α → Bool) (l : List α)
    (himp : ∀ a, q a = true → p a = true) :
    ((l.filter p).filter q).length = l.countP q := by
  induction l with
  | nil => rfl
  | cons x xs ih =>
      rw [List.filter_cons]
      by_cases hp : p x = true
      · rw [if_pos hp, List.filter_cons]
        by_cases hq : q x = true
        · rw [if_pos hq, List.length_cons, ih, List.countP_cons, if_pos hq]
        · rw [if_neg hq, ih, List.countP_cons, if_neg hq, Nat.add_zero]
      · have hq : ¬ q x = true := fun hq => hp (himp x hq)
        rw [if_neg hp, ih, List.countP_cons, if_neg hq, Nat.add_zero]

/-- The true-verdict rows of `summarize_percentage`'s `considered` list
are exactly the true-verdict rows of the input. -/
theorem length_filter_flu_true (rows : List GameRow) :
    ((rows.filter (fun r => r.honolulu_flu_loss.isSome)).filter
      (fun r => decide (r.honolulu_flu_loss = some true))).length =
    rows.countP (fun r => decide (r.honolulu_flu_loss = some true)) :=
  filterFilterLength _ _ rows (fun a ha => by
    have h : a.honolulu_flu_loss = some true := of_decide_eq_true ha
    simp [h])

/-- The denominator of `summarize_percentage` splits into true and false
verdict counts. -/
theorem length_filter_flu_split (rows : List GameRow) :
    (rows.filter (fun r => r.honolulu_flu_loss.isSome)).length =
    rows.countP (fun r => decide (r.honolulu_flu_loss = some true)) +
      rows.countP (fun r => decide (r.honolulu_flu_loss = some false)) := by
  rw [← List.countP_eq_length_filter]
  induction rows with
  | nil => rfl
  | cons r rest ih =>
      rw [List.countP_cons, List.countP_cons, List.countP_cons]
      rcases h : r.honolulu_flu_loss with _ | b
      · simp [h, ih]
      · cases b <;> simp [h, ih] <;> omega

/-- Claim C7: the summary percentage is `count(flu = true) /
count(flu non-null) * 100`; with a positive denominator it lies in
`[0, 100]` and the denominator is the sum of true and false counts; with
a zero denominator the percentage is `none`, never a division by zero. -/
theorem claim_C7 (rows : List GameRow) :
    ((summarize_percentage rows).2.1 = 0 →
      (summarize_percentage rows).2.2 = none) ∧
    ((summarize_percentage rows).2.1 =
      rows.countP (fun r => r.honolulu_flu_loss.isSome)) ∧
    ((summarize_percentage rows).1 =
      rows.countP (fun r => decide (r.honolulu_flu_loss = some true))) ∧
    ((summarize_percentage rows).2.1 =
      rows.countP (fun r => decide (r.honolulu_flu_loss = some true)) +
        rows.countP (fun r => decide (r.honolulu_flu_loss = some false))) ∧
    (0 < (summarize_percentage rows).2.1 →
      ∃ q, (summarize_percentage rows).2.2 = some q ∧
        q = (rows.countP
              (fun r => decide (r.honolulu_flu_loss = some true)) : ℚ) /
            (rows.countP (fun r => r.honolulu_flu_loss.isSome) : ℚ) * 100 ∧
        0 ≤ q ∧ q ≤ 100) := by
  have hsum : summarize_percentage rows =
      (((rows.filter (fun r => r.honolulu_flu_loss.isSome)).filter
          (fun r => decide (r.honolulu_flu_loss = some true))).length,
        (rows.filter (fun r => r.honolulu_flu_loss.isSome)).length,
        if ((rows.filter (fun r => r.honolulu_flu_loss.isSome)).length) > 0
        then some
          ((((rows.filter (fun r => r.honolulu_flu_loss.isSome)).filter
              (fun r => decide (r.honolulu_flu_loss = some true))).length : ℚ) /
            (((rows.filter (fun r => r.honolulu_flu_loss.isSome)).length : ℚ)) *
            100)
        else none) := rfl
  rw [hsum]
  simp only
  refine ⟨?_, ?_, length_filter_flu_true rows, length_filter_flu_split rows, ?_⟩
  · intro h0
    rw [if_neg (by omega)]
  · exact (List.countP_eq_length_filter _ _).symm
  · intro hpos
    rw [if_pos (by omega)]
    refine ⟨_, rfl, ?_, ?_, ?_⟩
    · rw [length_filter_flu_true rows, List.countP_eq_length_filter
        (fun r => r.honolulu_flu_loss.isSome) rows]
    · positivity
    · have hab : ((rows.filter (fun r => r.honolulu_flu_loss.isSome)).filter
          (fun r => decide (r.honolulu_flu_loss = some true))).length ≤
          (rows.filter (fun r => r.honolulu_flu_loss.isSome)).length :=
        List.length_filter_le _ _
      have hb : (0 : ℚ) <
          ((rows.filter (fun r => r.honolulu_flu_loss.isSome)).length : ℚ) := by
        exact_mod_cast hpos
      have h1 : (((rows.filter (fun r => r.honolulu_flu_loss.isSome)).filter
            (fun r => decide (r.honolulu_flu_loss = some true))).length : ℚ) /
          ((rows.filter (fun r => r.honolulu_flu_loss.isSome)).length : ℚ) ≤
          1 := (div_le_one hb).2 (by exact_mod_cast hab)
      calc (((rows.filter (fun r => r.honolulu_flu_loss.isSome)).filter
            (fun r => decide (r.honolulu_flu_loss = some true))).length : ℚ) /
            ((rows.filter (fun r => r.honolulu_flu_loss.isSome)).length : ℚ) *
            100 ≤ 1 * 100 := by
              exact mul_le_mul_of_nonneg_right h1 (by norm_num)
        _ = 100 := by norm_num

/-- Claim C7 witness: the percentage theorem applied to a concrete
single-row list with a true verdict. -/
theorem claim_C7_witness :
    ∃ q, (summarize_percentage [wC7row]).2.2 = some q ∧
      q = (([wC7row].countP
            (fun r => decide (r.honolulu_flu_loss = some true))) : ℚ) /
          (([wC7row].countP (fun r => r.honolulu_flu_loss.isSome)) : ℚ) * 100 ∧
      0 ≤ q ∧ q ≤ 100 :=
  (claim_C7 [wC7row]).2.2.2.2 (by decide)

/-! ## Branch equations for `linkGame` and filter helpers -/

theorem optFilterNe_some_eq_false (s : Int) (v : Option Int) :
    optFilterNe (some s) v = false ↔ v = some s := by
  unfold optFilterNe
  simp

theorem isCand_season_type_iff (pd : String → Option Int) (af : Int)
    (season st : Int) (r : GameRec) (t : Int) :
    isCand pd af (some season) (some st) r t ↔
      r.season = some season ∧ r.season_type = some st ∧
        parse_iso pd r.date = some t ∧ af < t := by
  unfold isCand
  rw [optFilterNe_some_eq_false, optFilterNe_some_eq_false]

theorem isCand_season_iff (pd : String → Option Int) (af : Int)
    (season : Int) (r : GameRec) (t : Int) :
    isCand pd af (some season) none r t ↔
      r.season = some season ∧ parse_iso pd r.date = some t ∧ af < t := by
  unfold isCand optFilterNe
  rw [show (decide (r.season ≠ some season) = false) ↔ r.season = some season
    from by simp]
  simp

theorem linkGame_post_L (getSched : String → Int → List GameRec)
    (pd : String → Option Int) (season : Int) (fm : FollowMode) (g : GameRec)
    (h3 : g.season_type = some 3) (hL : g.team_result = some "L") :
    linkGame getSched pd season fm g =
      (pick_next_game_after_with_filters pd (getSched (pyStr g.opp_id) season)
        ((parse_iso pd g.date).getD 0) (some season) (some 3), false, false) := by
  simp only [linkGame]
  rw [if_pos h3, if_pos hL]

theorem linkGame_post_elim (getSched : String → Int → List GameRec)
    (pd : String → Option Int) (season : Int) (fm : FollowMode) (g : GameRec)
    (h3 : g.season_type = some 3) (hNL : ¬ g.team_result = some "L") :
    linkGame getSched pd season fm g =
      ((sortByKey (fallbackKey pd)
          ((getSched (pyStr g.opp_id) (season + 1)).filter
            (fun r => decide (r.season_type = some 2)))).head?, false,
        (sortByKey (fallbackKey pd)
          ((getSched (pyStr g.opp_id) (season + 1)).filter
            (fun r => decide (r.season_type = some 2)))).head?.isSome) := by
  simp only [linkGame]
  rw [if_pos h3, if_neg hNL]

theorem linkGame_week_bye (getSched : String → Int → List GameRec)
    (pd : String → Option Int) (season : Int) (g : GameRec) (w : Int)
    (h3 : ¬ g.season_type = some 3) (hw : g.week = some w)
    (hpickw : pick_next_week_game (getSched (pyStr g.opp_id) season)
      (w + 1) = none)
    (hlater : (pick_next_game_after_with_filters pd
      (getSched (pyStr g.opp_id) season) ((parse_iso pd g.date).getD 0)
      (some season) none).isSome = true) :
    linkGame getSched pd season FollowMode.week g = (none, true, false) := by
  simp only [linkGame]
  rw [if_neg h3]
  simp only [hw, hpickw]
  rw [if_pos hlater]

theorem linkGame_week_fallback (getSched : String → Int → List GameRec)
    (pd : String → Option Int) (season : Int) (g : GameRec) (w : Int)
    (h3 : ¬ g.season_type = some 3) (hw : g.week = some w)
    (hpickw : pick_next_week_game (getSched (pyStr g.opp_id) season)
      (w + 1) = none)
    (hlater : pick_next_game_after_with_filters pd
      (getSched (pyStr g.opp_id) season) ((parse_iso pd g.date).getD 0)
      (some season) none = none) :
    linkGame getSched pd season FollowMode.week g =
      ((sortByKey (fallbackKey pd)
          ((getSched (pyStr g.opp_id) (season + 1)).filter
            (fun r => decide (r.season_type = some 2)))).head?, false,
        (sortByKey (fallbackKey pd)
          ((getSched (pyStr g.opp_id) (season + 1)).filter
            (fun r => decide (r.season_type = some 2)))).head?.isSome) := by
  simp only [linkGame]
  rw [if_neg h3]
  simp only [hw, hpickw, hlater]
  rw [if_neg (by simp)]

theorem linkGame_game_found (getSched : String → Int → List GameRec)
    (pd : String → Option Int) (season : Int) (g : GameRec) (n : GameRec)
    (h3 : ¬ g.season_type = some 3)
    (hpick : pick_next_game_after pd (getSched (pyStr g.opp_id) season)
      ((parse_iso pd g.date).getD 0) = some n) :
    linkGame getSched pd season FollowMode.game g = (some n, false, false) := by
  simp only [linkGame]
  rw [if_neg h3]
  simp only [hpick]

theorem linkGame_game_fallback (getSched : String → Int → List GameRec)
    (pd : String → Option Int) (season : Int) (g : GameRec)
    (h3 : ¬ g.season_type = some 3)
    (hpick : pick_next_game_after pd (getSched (pyStr g.opp_id) season)
      ((parse_iso pd g.date).getD 0) = none) :
    linkGame getSched pd season FollowMode.game g =
      ((sortByKey (fallbackKey pd)
          (getSched (pyStr g.opp_id) (season + 1))).head?, false,
        (sortByKey (fallbackKey pd)
          (getSched (pyStr g.opp_id) (season + 1))).head?.isSome) := by
  simp only [linkGame]
  rw [if_neg h3]
  simp only [hpick]

/-- Claim C4 (amended): for a qualifying postseason game — if the subject
lost, the next game is the opponent's earliest same-season postseason game
strictly after the subject's game date and `crossSeason` is false; if the
subject won or tied, the next game is, regardless of its date relative to
the subject's game, the minimum of the opponent's season+1 regular-season
games under the parsed-timestamp-defaulting-to-0 key — the chronologically
first only when every candidate's date parses, since an unparsable-dated
record gets key 0 and can be selected first — with `crossSeason` true
exactly when one is found. -/
theorem claim_C4 (getSched : String → Int → List GameRec)
    (pd : String → Option Int) (season : Int) (fm : FollowMode) (g : GameRec)
    (ts : Int) (hpost : g.season_type = some 3)
    (hts : parse_iso pd g.date = some ts) :
    (g.team_result = some "L" →
      (linkGame getSched pd season fm g).2.1 = false ∧
      (linkGame getSched pd season fm g).2.2 = false ∧
      (∀ n, (linkGame getSched pd season fm g).1 = some n →
        n ∈ getSched (pyStr g.opp_id) season ∧ n.season = some season ∧
          n.season_type = some 3 ∧
          ∃ tn, parse_iso pd n.date = some tn ∧ ts < tn ∧
            ∀ m ∈ getSched (pyStr g.opp_id) season, m.season = some season →
              m.season_type = some 3 → ∀ tm, parse_iso pd m.date = some tm →
                ts < tm → tn ≤ tm) ∧
      ((linkGame getSched pd season fm g).1 = none ↔
        ∀ m ∈ getSched (pyStr g.opp_id) season,
          ¬(m.season = some season ∧ m.season_type = some 3 ∧
            ∃ tm, parse_iso pd m.date = some tm ∧ ts < tm))) ∧
    ((g.team_result = some "W" ∨ g.team_result = some "T") →
      (linkGame getSched pd season fm g).2.1 = false ∧
      ((linkGame getSched pd season fm g).2.2 =
        ((linkGame getSched pd season fm g).1).isSome) ∧
      (∀ n, (linkGame getSched pd season fm g).1 = some n →
        n ∈ getSched (pyStr g.opp_id) (season + 1) ∧ n.season_type = some 2 ∧
          (∀ m ∈ getSched (pyStr g.opp_id) (season + 1),
            m.season_type = some 2 → fallbackKey pd n ≤ fallbackKey pd m) ∧
          ((∀ r ∈ getSched (pyStr g.opp_id) (season + 1),
              r.season_type = some 2 → (parse_iso pd r.date).isSome = true) →
            ∃ tn, parse_iso pd n.date = some tn ∧
              ∀ m ∈ getSched (pyStr g.opp_id) (season + 1),
                m.season_type = some 2 → ∀ tm, parse_iso pd m.date = some tm →
                  tn ≤ tm)) ∧
      ((linkGame getSched pd season fm g).1 = none ↔
        (getSched (pyStr g.opp_id) (season + 1)).filter
          (fun r => decide (r.season_type = some 2)) = [])) := by
  have hts0 : (parse_iso pd g.date).getD 0 = ts := by rw [hts]; rfl
  constructor
  · intro hL
    have hcomp := linkGame_post_L getSched pd season fm g hpost hL
    rw [hts0] at hcomp
    have h1 : (linkGame getSched pd season fm g).1 =
        pick_next_game_after_with_filters pd (getSched (pyStr g.opp_id) season)
          ts (some season) (some 3) := by rw [hcomp]
    have h21 : (linkGame getSched pd season fm g).2.1 = false := by rw [hcomp]
    have h22 : (linkGame getSched pd season fm g).2.2 = false := by rw [hcomp]
    refine ⟨h21, h22, ?_, ?_⟩
    · intro n hn
      rw [h1] at hn
      rcases pick_with_filters_spec_some pd _ ts (some season) (some 3) n hn with
        ⟨t, hmem, hcand, hmin⟩
      rw [isCand_season_type_iff] at hcand
      refine ⟨hmem, hcand.1, hcand.2.1, t, hcand.2.2.1, hcand.2.2.2, ?_⟩
      intro m hm hms hmt tm hptm hlt
      exact hmin m hm tm
        ((isCand_season_type_iff pd ts season 3 m tm).2 ⟨hms, hmt, hptm, hlt⟩)
    · rw [h1, pick_with_filters_none_iff]
      constructor
      · intro hnone m hm
        rintro ⟨hms, hmt, tm, hptm, hlt⟩
        exact hnone m hm tm
          ((isCand_season_type_iff pd ts season 3 m tm).2 ⟨hms, hmt, hptm, hlt⟩)
      · intro hall r hr t hc
        rw [isCand_season_type_iff] at hc
        exact hall r hr ⟨hc.1, hc.2.1, t, hc.2.2.1, hc.2.2.2⟩
  · intro hWT
    have hNL : ¬ g.team_result = some "L" := by
      rcases hWT with h | h <;> rw [h] <;> simp
    have hcomp := linkGame_post_elim getSched pd season fm g hpost hNL
    have h1 : (linkGame getSched pd season fm g).1 =
        (sortByKey (fallbackKey pd)
          ((getSched (pyStr g.opp_id) (season + 1)).filter
            (fun r => decide (r.season_type = some 2)))).head? := by rw [hcomp]
    have h21 : (linkGame getSched pd season fm g).2.1 = false := by rw [hcomp]
    have h22 : (linkGame getSched pd season fm g).2.2 =
        ((linkGame getSched pd season fm g).1).isSome := by rw [hcomp]
    refine ⟨h21, h22, ?_, ?_⟩
    · intro n hn
      rw [h1] at hn
      rcases sortByKey_head_min (fallbackKey pd) _ n hn with ⟨hmemf, hminf⟩
      have hmem1 : n ∈ getSched (pyStr g.opp_id) (season + 1) :=
        (List.mem_filter.1 hmemf).1
      have hst2 : n.season_type = some 2 := by
        have h := (List.mem_filter.1 hmemf).2
        simpa using h
      have hkeymin : ∀ m ∈ getSched (pyStr g.opp_id) (season + 1),
          m.season_type = some 2 → fallbackKey pd n ≤ fallbackKey pd m := by
        intro m hm hm2
        exact hminf m (List.mem_filter.2 ⟨hm, by simp [hm2]⟩)
      refine ⟨hmem1, hst2, hkeymin, ?_⟩
      intro hpar
      rcases Option.isSome_iff_exists.1 (hpar n hmem1 hst2) with ⟨tn, htn⟩
      refine ⟨tn, htn, ?_⟩
      intro m hm hm2 tm hptm
      have hmf : m ∈ (getSched (pyStr g.opp_id) (season + 1)).filter
          (fun r => decide (r.season_type = some 2)) :=
        List.mem_filter.2 ⟨hm, by simp [hm2]⟩
      have hk := hminf m hmf
      unfold fallbackKey at hk
      rw [htn, hptm] at hk
      simpa using hk
    · rw [h1, List.head?_eq_none_iff, sortByKey_eq_nil]

/-- Claim C4 counterexample: after a postseason win, the cross-season
fallback resolves the record whose date does not parse, even though a
parsable regular-season candidate for `season + 1` exists — so the
resolved next game is not the opponent's chronologically first
regular-season game of `season + 1` in the spec's sense (unparsable dates
excluded from the candidate pool), refuting the win/tie clause of the
claim as stated. -/
theorem claim_C4_counterexample :
    cxC4g.season_type = some 3 ∧ cxC4g.team_result = some "W" ∧
    (linkGame cxC4sched cxC4pd 2023 FollowMode.week cxC4g).1 =
      some cxC4bad ∧
    (linkGame cxC4sched cxC4pd 2023 FollowMode.week cxC4g).2.2 = true ∧
    parse_iso cxC4pd cxC4bad.date = none ∧
    cxC4good ∈ cxC4sched "9" (2023 + 1) ∧
    cxC4good.season_type = some 2 ∧
    parse_iso cxC4pd cxC4good.date = some 500 := by decide

/-- Claim C4 witness: the postseason-loss branch on a concrete schedule
with one later postseason game, and the win branch on a concrete
season+1 schedule with one regular-season game. -/
theorem claim_C4_witness :
    (wC4n ∈ wC4sched (pyStr wC4g.opp_id) 2023 ∧ wC4n.season = some 2023 ∧
      wC4n.season_type = some 3 ∧
      ∃ tn, parse_iso wC4pd wC4n.date = some tn ∧ (100 : Int) < tn ∧
        ∀ m ∈ wC4sched (pyStr wC4g.opp_id) 2023, m.season = some 2023 →
          m.season_type = some 3 → ∀ tm, parse_iso wC4pd m.date = some tm →
            100 < tm → tn ≤ tm) ∧
    (wC4r ∈ wC4sched2 (pyStr wC4g2.opp_id) (2023 + 1) ∧
      wC4r.season_type = some 2 ∧
      ∀ m ∈ wC4sched2 (pyStr wC4g2.opp_id) (2023 + 1),
        m.season_type = some 2 →
          fallbackKey wC4pd2 wC4r ≤ fallbackKey wC4pd2 m) :=
  ⟨(((claim_C4 wC4sched wC4pd 2023 FollowMode.week wC4g 100 (by decide)
      (by decide)).1 (by decide)).2.2.1) wC4n (by decide),
   (let h := (((claim_C4 wC4sched2 wC4pd2 2023 FollowMode.week wC4g2 100
        (by decide) (by decide)).2 (Or.inl (by decide))).2.2.1) wC4r (by decide)
    ⟨h.1, h.2.1, h.2.2.1⟩)⟩

/-- Claim C5 (amended): for a qualifying regular-season game in
week-follow mode where the opponent has no regular-season game in week
`w + 1` — if the opponent has any later same-season game (date strictly
after the subject's game), the row is a bye: `afterBye` is true, no
next-game record, no cross-season; otherwise the resolution falls back to
the minimum of the opponent's season+1 regular-season games under the
parsed-timestamp-defaulting-to-0 key — the chronologically earliest only
when every candidate's date parses, since an unparsable-dated record gets
key 0 and can be selected first — with `crossSeason` true exactly when
one is found. -/
theorem claim_C5 (getSched : String → Int → List GameRec)
    (pd : String → Option Int) (season : Int) (g : GameRec) (w ts : Int)
    (hreg : g.season_type = some 2)
    (hw : g.week = some w)
    (hts : parse_iso pd g.date = some ts)
    (hnoweek : ∀ r ∈ getSched (pyStr g.opp_id) season,
      ¬(r.season_type = some 2 ∧ r.week = some (w + 1))) :
    ((∃ m ∈ getSched (pyStr g.opp_id) season, m.season = some season ∧
        ∃ tm, parse_iso pd m.date = some tm ∧ ts < tm) →
      linkGame getSched pd season FollowMode.week g = (none, true, false)) ∧
    ((∀ m ∈ getSched (pyStr g.opp_id) season,
        ¬(m.season = some season ∧
          ∃ tm, parse_iso pd m.date = some tm ∧ ts < tm)) →
      (linkGame getSched pd season FollowMode.week g).2.1 = false ∧
      ((linkGame getSched pd season FollowMode.week g).2.2 =
        ((linkGame getSched pd season FollowMode.week g).1).isSome) ∧
      (∀ n, (linkGame getSched pd season FollowMode.week g).1 = some n →
        n ∈ getSched (pyStr g.opp_id) (season + 1) ∧ n.season_type = some 2 ∧
          (∀ m ∈ getSched (pyStr g.opp_id) (season + 1),
            m.season_type = some 2 → fallbackKey pd n ≤ fallbackKey pd m) ∧
          ((∀ r ∈ getSched (pyStr g.opp_id) (season + 1),
              r.season_type = some 2 → (parse_iso pd r.date).isSome = true) →
            ∃ tn, parse_iso pd n.date = some tn ∧
              ∀ m ∈ getSched (pyStr g.opp_id) (season + 1),
                m.season_type = some 2 → ∀ tm, parse_iso pd m.date = some tm →
                  tn ≤ tm)) ∧
      ((linkGame getSched pd season FollowMode.week g).1 = none ↔
        (getSched (pyStr g.opp_id) (season + 1)).filter
          (fun r => decide (r.season_type = some 2)) = [])) := by
  have h3 : ¬ g.season_type = some 3 := by rw [hreg]; simp
  have hts0 : (parse_iso pd g.date).getD 0 = ts := by rw [hts]; rfl
  have hpickw : pick_next_week_game (getSched (pyStr g.opp_id) season)
      (w + 1) = none := by
    unfold pick_next_week_game
    rw [List.find?_eq_none]
    intro r hr
    simpa using hnoweek r hr
  constructor
  · rintro ⟨m, hm, hms, tm, hptm, hlt⟩
    have hcand : isCand pd ts (some season) none m tm :=
      (isCand_season_iff pd ts season m tm).2 ⟨hms, hptm, hlt⟩
    have hne : pick_next_game_after_with_filters pd
        (getSched (pyStr g.opp_id) season) ts (some season) none ≠ none := by
      intro hn
      exact (pick_with_filters_none_iff pd _ ts (some season) none).1 hn
        m hm tm hcand
    have hlater : (pick_next_game_after_with_filters pd
        (getSched (pyStr g.opp_id) season) ts (some season) none).isSome =
        true := Option.isSome_iff_ne_none.2 hne
    rw [← hts0] at hlater
    exact linkGame_week_bye getSched pd season g w h3 hw hpickw hlater
  · intro hnone
    have hlater : pick_next_game_after_with_filters pd
        (getSched (pyStr g.opp_id) season) ts (some season) none = none := by
      rw [pick_with_filters_none_iff]
      intro r hr t hc
      rw [isCand_season_iff] at hc
      exact hnone r hr ⟨hc.1, t, hc.2.1, hc.2.2⟩
    rw [← hts0] at hlater
    have hcomp := linkGame_week_fallback getSched pd season g w h3 hw hpickw
      hlater
    have h1 : (linkGame getSched pd season FollowMode.week g).1 =
        (sortByKey (fallbackKey pd)
          ((getSched (pyStr g.opp_id) (season + 1)).filter
            (fun r => decide (r.season_type = some 2)))).head? := by rw [hcomp]
    have h21 : (linkGame getSched pd season FollowMode.week g).2.1 = false := by
      rw [hcomp]
    have h22 : (linkGame getSched pd season FollowMode.week g).2.2 =
        ((linkGame getSched pd season FollowMode.week g).1).isSome := by
      rw [hcomp]
    refine ⟨h21, h22, ?_, ?_⟩
    · intro n hn
      rw [h1] at hn
      rcases sortByKey_head_min (fallbackKey pd) _ n hn with ⟨hmemf, hminf⟩
      have hmem1 : n ∈ getSched (pyStr g.opp_id) (season + 1) :=
        (List.mem_filter.1 hmemf).1
      have hst2 : n.season_type = some 2 := by
        have h := (List.mem_filter.1 hmemf).2
        simpa using h
      have hkeymin : ∀ m ∈ getSched (pyStr g.opp_id) (season + 1),
          m.season_type = some 2 → fallbackKey pd n ≤ fallbackKey pd m := by
        intro m hm hm2
        exact hminf m (List.mem_filter.2 ⟨hm, by simp [hm2]⟩)
      refine ⟨hmem1, hst2, hkeymin, ?_⟩
      intro hpar
      rcases Option.isSome_iff_exists.1 (hpar n hmem1 hst2) with ⟨tn, htn⟩
      refine ⟨tn, htn, ?_⟩
      intro m hm hm2 tm hptm
      have hmf : m ∈ (getSched (pyStr g.opp_id) (season + 1)).filter
          (fun r => decide (r.season_type = some 2)) :=
        List.mem_filter.2 ⟨hm, by simp [hm2]⟩
      have hk := hminf m hmf
      unfold fallbackKey at hk
      rw [htn, hptm] at hk
      simpa using hk
    · rw [h1, List.head?_eq_none_iff, sortByKey_eq_nil]

/-- Claim C5 counterexample: with no next-week game and no later
same-season game, the season+1 fallback resolves the record whose date
does not parse, even though a parsable regular-season candidate exists —
so the resolved next game is not the opponent's chronologically earliest
regular-season game of `season + 1` in the spec's sense (unparsable dates
excluded from the candidate pool), refuting the fallback clause of the
claim as stated. -/
theorem claim_C5_counterexample :
    cxC5g.season_type = some 2 ∧ cxC5g.week = some 17 ∧
    pick_next_week_game (cxC5sched "9" 2024) 18 = none ∧
    (linkGame cxC5sched cxC5pd 2024 FollowMode.week cxC5g).1 =
      some cxC5bad ∧
    (linkGame cxC5sched cxC5pd 2024 FollowMode.week cxC5g).2.1 = false ∧
    (linkGame cxC5sched cxC5pd 2024 FollowMode.week cxC5g).2.2 = true ∧
    parse_iso cxC5pd cxC5bad.date = none ∧
    cxC5good ∈ cxC5sched "9" (2024 + 1) ∧
    cxC5good.season_type = some 2 ∧
    parse_iso cxC5pd cxC5good.date = some 500 := by decide

/-- Claim C5 witness: the bye branch on a concrete schedule where the
opponent skips week 10 but plays in week 11, and the season+1 fallback
branch on a concrete schedule whose season is over. -/
theorem claim_C5_witness :
    linkGame wC5sched wC5pd 2024 FollowMode.week wC5g = (none, true, false) ∧
    (wC5r ∈ wC5sched2 (pyStr wC5g2.opp_id) (2024 + 1) ∧
      wC5r.season_type = some 2 ∧
      ∀ m ∈ wC5sched2 (pyStr wC5g2.opp_id) (2024 + 1),
        m.season_type = some 2 →
          fallbackKey wC5pd2 wC5r ≤ fallbackKey wC5pd2 m) :=
  ⟨(claim_C5 wC5sched wC5pd 2024 wC5g 9 1000 (by decide) (by decide)
      (by decide) (by decide)).1
    ⟨wC5m, by decide, by decide, 3000, by decide, by decide⟩,
   (let h := ((claim_C5 wC5sched2 wC5pd2 2024 wC5g2 17 1000 (by decide)
        (by decide) (by decide) (by decide)).2
        (fun m hm => absurd hm (List.not_mem_nil m))).2.2.1 wC5r (by decide)
    ⟨h.1, h.2.1, h.2.2.1⟩)⟩

theorem linkGame_week_found (getSched : String → Int → List GameRec)
    (pd : String → Option Int) (season : Int) (g : GameRec) (w : Int)
    (n : GameRec) (h3 : ¬ g.season_type = some 3) (hw : g.week = some w)
    (hfound : pick_next_week_game (getSched (pyStr g.opp_id) season)
      (w + 1) = some n) :
    linkGame getSched pd season FollowMode.week g = (some n, false, false) := by
  simp only [linkGame]
  rw [if_neg h3]
  simp only [hw, hfound]

theorem linkGame_week_noweek_bye (getSched : String → Int → List GameRec)
    (pd : String → Option Int) (season : Int) (g : GameRec)
    (h3 : ¬ g.season_type = some 3) (hw : g.week = none)
    (hlater : (pick_next_game_after_with_filters pd
      (getSched (pyStr g.opp_id) season) ((parse_iso pd g.date).getD 0)
      (some season) none).isSome = true) :
    linkGame getSched pd season FollowMode.week g = (none, true, false) := by
  simp only [linkGame]
  rw [if_neg h3]
  simp only [hw]
  rw [if_pos hlater]

theorem linkGame_week_noweek_fallback (getSched : String → Int → List GameRec)
    (pd : String → Option Int) (season : Int) (g : GameRec)
    (h3 : ¬ g.season_type = some 3) (hw : g.week = none)
    (hlater : pick_next_game_after_with_filters pd
      (getSched (pyStr g.opp_id) season) ((parse_iso pd g.date).getD 0)
      (some season) none = none) :
    linkGame getSched pd season FollowMode.week g =
      ((sortByKey (fallbackKey pd)
          ((getSched (pyStr g.opp_id) (season + 1)).filter
            (fun r => decide (r.season_type = some 2)))).head?, false,
        (sortByKey (fallbackKey pd)
          ((getSched (pyStr g.opp_id) (season + 1)).filter
            (fun r => decide (r.season_type = some 2)))).head?.isSome) := by
  simp only [linkGame]
  rw [if_neg h3]
  simp only [hw, hlater]
  rw [if_neg (by simp)]

/-- Claim C6 (amended): `crossSeason` is true exactly when the next game
was resolved by one of the cross-season fallbacks (postseason non-loss;
week mode with no next-week game and no later same-season candidate;
game mode with no later candidate); every record so resolved belongs to
the opponent's fetched `season + 1` schedule, but its own `season` field
is never consulted and may differ from `season + 1`. -/
theorem claim_C6 (getSched : String → Int → List GameRec)
    (pd : String → Option Int) (season : Int) (fm : FollowMode) (g : GameRec) :
    ((linkGame getSched pd season fm g).2.2 = true →
      ∃ n, (linkGame getSched pd season fm g).1 = some n ∧
        n ∈ getSched (pyStr g.opp_id) (season + 1)) ∧
    ((linkGame getSched pd season fm g).2.2 = true ↔
      ((linkGame getSched pd season fm g).1).isSome = true ∧
      ((g.season_type = some 3 ∧ ¬ g.team_result = some "L") ∨
       (¬ g.season_type = some 3 ∧ fm = FollowMode.week ∧
          (match g.week with
            | Option.some w =>
              pick_next_week_game (getSched (pyStr g.opp_id) season) (w + 1)
            | Option.none => Option.none) = none ∧
          pick_next_game_after_with_filters pd
            (getSched (pyStr g.opp_id) season)
            ((parse_iso pd g.date).getD 0) (some season) none = none) ∨
       (¬ g.season_type = some 3 ∧ fm = FollowMode.game ∧
          pick_next_game_after pd (getSched (pyStr g.opp_id) season)
            ((parse_iso pd g.date).getD 0) = none))) := by
  by_cases h3 : g.season_type = some 3
  · by_cases hL : g.team_result = some "L"
    · have hcomp := linkGame_post_L getSched pd season fm g h3 hL
      constructor
      · intro hcr
        rw [hcomp] at hcr
        exact absurd hcr (by simp)
      · rw [hcomp]
        simp [h3, hL]
    · have hcomp := linkGame_post_elim getSched pd season fm g h3 hL
      constructor
      · intro hcr
        rw [hcomp] at hcr
        have hcr' : (sortByKey (fallbackKey pd)
            ((getSched (pyStr g.opp_id) (season + 1)).filter
              (fun r => decide (r.season_type = some 2)))).head?.isSome =
            true := hcr
        rcases Option.isSome_iff_exists.1 hcr' with ⟨n, hn⟩
        rw [hcomp]
        exact ⟨n, hn, (List.mem_filter.1 (sortByKey_head_mem _ _ n hn)).1⟩
      · rw [hcomp]
        simp [h3, hL]
  · cases fm with
    | week =>
        cases hw : g.week with
        | none =>
            by_cases hl : (pick_next_game_after_with_filters pd
                (getSched (pyStr g.opp_id) season)
                ((parse_iso pd g.date).getD 0) (some season) none).isSome = true
            · have hcomp := linkGame_week_noweek_bye getSched pd season g h3
                hw hl
              constructor
              · intro hcr
                rw [hcomp] at hcr
                exact absurd hcr (by simp)
              · rw [hcomp]
                simp [h3, hw, hl]
            · have hln : pick_next_game_after_with_filters pd
                  (getSched (pyStr g.opp_id) season)
                  ((parse_iso pd g.date).getD 0) (some season) none = none := by
                cases hp : pick_next_game_after_with_filters pd
                    (getSched (pyStr g.opp_id) season)
                    ((parse_iso pd g.date).getD 0) (some season) none with
                | none => rfl
                | some v => exact absurd (by rw [hp]; rfl) hl
              have hcomp := linkGame_week_noweek_fallback getSched pd season g
                h3 hw hln
              constructor
              · intro hcr
                rw [hcomp] at hcr
                have hcr' : (sortByKey (fallbackKey pd)
                    ((getSched (pyStr g.opp_id) (season + 1)).filter
                      (fun r => decide (r.season_type = some 2)))).head?.isSome =
                    true := hcr
                rcases Option.isSome_iff_exists.1 hcr' with ⟨n, hn⟩
                rw [hcomp]
                exact ⟨n, hn, (List.mem_filter.1 (sortByKey_head_mem _ _ n hn)).1⟩
              · rw [hcomp]
                simp [h3, hw, hln]
        | some w =>
            cases hpw : pick_next_week_game (getSched (pyStr g.opp_id) season)
                (w + 1) with
            | some n =>
                have hcomp := linkGame_week_found getSched pd season g w n h3
                  hw hpw
                constructor
                · intro hcr
                  rw [hcomp] at hcr
                  exact absurd hcr (by simp)
                · rw [hcomp]
                  simp [h3, hw, hpw]
            | none =>
                by_cases hl : (pick_next_game_after_with_filters pd
                    (getSched (pyStr g.opp_id) season)
                    ((parse_iso pd g.date).getD 0) (some season) none).isSome =
                    true
                · have hcomp := linkGame_week_bye getSched pd season g w h3 hw
                    hpw hl
                  constructor
                  · intro hcr
                    rw [hcomp] at hcr
                    exact absurd hcr (by simp)
                  · rw [hcomp]
                    simp [h3, hw, hpw, hl]
                · have hln : pick_next_game_after_with_filters pd
                      (getSched (pyStr g.opp_id) season)
                      ((parse_iso pd g.date).getD 0) (some season) none =
                      none := by
                    cases hp : pick_next_game_after_with_filters pd
                        (getSched (pyStr g.opp_id) season)
                        ((parse_iso pd g.date).getD 0) (some season) none with
                    | none => rfl
                    | some v => exact absurd (by rw [hp]; rfl) hl
                  have hcomp := linkGame_week_fallback getSched pd season g w
                    h3 hw hpw hln
                  constructor
                  · intro hcr
                    rw [hcomp] at hcr
                    have hcr' : (sortByKey (fallbackKey pd)
                        ((getSched (pyStr g.opp_id) (season + 1)).filter
                          (fun r =>
                            decide (r.season_type = some 2)))).head?.isSome =
                        true := hcr
                    rcases Option.isSome_iff_exists.1 hcr' with ⟨n, hn⟩
                    rw [hcomp]
                    exact ⟨n, hn,
                      (List.mem_filter.1 (sortByKey_head_mem _ _ n hn)).1⟩
                  · rw [hcomp]
                    simp [h3, hw, hpw, hln]
    | game =>
        cases hpk : pick_next_game_after pd (getSched (pyStr g.opp_id) season)
            ((parse_iso pd g.date).getD 0) with
        | some n =>
            have hcomp := linkGame_game_found getSched pd season g n h3 hpk
            constructor
            · intro hcr
              rw [hcomp] at hcr
              exact absurd hcr (by simp)
            · rw [hcomp]
              simp [h3, hpk]
        | none =>
            have hcomp := linkGame_game_fallback getSched pd season g h3 hpk
            constructor
            · intro hcr
              rw [hcomp] at hcr
              have hcr' : (sortByKey (fallbackKey pd)
                  (getSched (pyStr g.opp_id) (season + 1))).head?.isSome =
                  true := hcr
              rcases Option.isSome_iff_exists.1 hcr' with ⟨n, hn⟩
              rw [hcomp]
              exact ⟨n, hn, sortByKey_head_mem _ _ n hn⟩
            · rw [hcomp]
              simp [h3, hpk]

/-- Claim C6 counterexample: after a postseason win, the cross-season
fallback resolves a next game whose own `season` field is missing, yet
`crossSeason` is set to true — refuting "crossSeason = true iff the
resolved record's season equals the subject game's season plus one". -/
theorem claim_C6_counterexample :
    (linkGame cxC6sched cxC6pd 2024 FollowMode.week cxC6g).2.2 = true ∧
    (linkGame cxC6sched cxC6pd 2024 FollowMode.week cxC6g).1 = some cxC6n ∧
    ¬ cxC6n.season = some (2024 + 1) := by decide

/-- Claim C6 witness: the amended theorem applied to the concrete
cross-season resolution. -/
theorem claim_C6_witness :
    ∃ n, (linkGame cxC6sched cxC6pd 2024 FollowMode.week cxC6g).1 = some n ∧
      n ∈ cxC6sched (pyStr cxC6g.opp_id) (2024 + 1) :=
  (claim_C6 cxC6sched cxC6pd 2024 FollowMode.week cxC6g).1 (by decide)

/-- Claim C10 (amended): when the subject game's own date string does not
parse, all "strictly after" comparisons use reference timestamp 0 — so in
NEXT_PLAYED_GAME mode the chosen game is the earliest opponent game whose
date parses to a strictly positive timestamp, and in NEXT_WEEK mode (after
no next-week game is found) bye detection sees a later game exactly when
the opponent has a game carrying the subject season's `season` field whose
date parses to a strictly positive timestamp. -/
theorem claim_C10 (getSched : String → Int → List GameRec)
    (pd : String → Option Int) (season : Int) (g : GameRec) (w : Int)
    (hd : parse_iso pd g.date = none)
    (hn3 : ¬ g.season_type = some 3) :
    ((∃ m ∈ getSched (pyStr g.opp_id) season, ∃ tm,
        parse_iso pd m.date = some tm ∧ 0 < tm) →
      ∃ n, (linkGame getSched pd season FollowMode.game g).1 = some n ∧
        n ∈ getSched (pyStr g.opp_id) season ∧
        ∃ tn, parse_iso pd n.date = some tn ∧ 0 < tn ∧
          ∀ m ∈ getSched (pyStr g.opp_id) season, ∀ tm,
            parse_iso pd m.date = some tm → 0 < tm → tn ≤ tm) ∧
    (g.week = some w →
      (∀ r ∈ getSched (pyStr g.opp_id) season,
        ¬(r.season_type = some 2 ∧ r.week = some (w + 1))) →
      (∃ m ∈ getSched (pyStr g.opp_id) season, m.season = some season ∧
        ∃ tm, parse_iso pd m.date = some tm ∧ 0 < tm) →
      linkGame getSched pd season FollowMode.week g = (none, true, false)) := by
  have hts0 : (parse_iso pd g.date).getD 0 = 0 := by rw [hd]; rfl
  constructor
  · rintro ⟨m, hm, tm, hptm, hpos⟩
    have hcand : isCand pd 0 none none m tm :=
      (isCand_none_none pd 0 m tm).2 ⟨hptm, hpos⟩
    have hne : pick_next_game_after pd (getSched (pyStr g.opp_id) season)
        ((parse_iso pd g.date).getD 0) ≠ none := by
      rw [hts0, pick_next_game_after_eq_filters]
      intro hn
      exact (pick_with_filters_none_iff pd _ 0 none none).1 hn m hm tm hcand
    rcases Option.ne_none_iff_exists'.1 hne with ⟨n, hn⟩
    have hlg := linkGame_game_found getSched pd season g n hn3 hn
    rw [hts0, pick_next_game_after_eq_filters] at hn
    rcases pick_with_filters_spec_some pd _ 0 none none n hn with
      ⟨t, hmem, hcand', hmin⟩
    rw [isCand_none_none] at hcand'
    refine ⟨n, by rw [hlg], hmem, t, hcand'.1, hcand'.2, ?_⟩
    intro m' hm' tm' hptm' hpos'
    exact hmin m' hm' tm' ((isCand_none_none pd 0 m' tm').2 ⟨hptm', hpos'⟩)
  · intro hw hnoweek hlaterx
    have hpickw : pick_next_week_game (getSched (pyStr g.opp_id) season)
        (w + 1) = none := by
      unfold pick_next_week_game
      rw [List.find?_eq_none]
      intro r hr
      simpa using hnoweek r hr
    rcases hlaterx with ⟨m, hm, hms, tm, hptm, hpos⟩
    have hcand : isCand pd 0 (some season) none m tm :=
      (isCand_season_iff pd 0 season m tm).2 ⟨hms, hptm, hpos⟩
    have hne : pick_next_game_after_with_filters pd
        (getSched (pyStr g.opp_id) season) 0 (some season) none ≠ none := by
      intro hn
      exact (pick_with_filters_none_iff pd _ 0 (some season) none).1 hn
        m hm tm hcand
    have hlater : (pick_next_game_after_with_filters pd
        (getSched (pyStr g.opp_id) season) ((parse_iso pd g.date).getD 0)
        (some season) none).isSome = true := by
      rw [hts0]
      exact Option.isSome_iff_ne_none.2 hne
    exact linkGame_week_bye getSched pd season g w hn3 hw hpickw hlater

/-- Claim C10 counterexample: the subject game's date does not parse and
the opponent has a later game with a parsable date, yet — because that
game's own `season` field is missing — bye detection does not count it:
the row is not marked `afterBye`, refuting "bye detection treats any
parsable opponent game as a later game". -/
theorem claim_C10_counterexample :
    parse_iso cxC10pd cxC10g.date = none ∧
    cxC10m ∈ cxC10sched "9" 2024 ∧
    parse_iso cxC10pd cxC10m.date = some 9000 ∧
    linkGame cxC10sched cxC10pd 2024 FollowMode.week cxC10g =
      (none, false, false) := by decide

/-- Claim C10 witness: the amended bye-detection behaviour applied to a
concrete opponent schedule carrying the season field. -/
theorem claim_C10_witness :
    linkGame wC10sched wC10pd 2024 FollowMode.week wC10g =
      (none, true, false) :=
  (claim_C10 wC10sched wC10pd 2024 wC10g 9 (by decide) (by decide)).2
    (by decide) (by decide)
    ⟨wC10m, by decide, by decide, 50, by decide, by decide⟩

theorem foldl_fun_congr {α β : Type} (f h : β → α → β)
    (hfh : ∀ b a, f b a = h b a) :
    ∀ (l : List α) (b : β), l.foldl f b = l.foldl h b := by
  intro l
  induction l with
  | nil => intro b; rfl
  | cons x xs ih =>
      intro b
      rw [List.foldl_cons, List.foldl_cons, hfh, ih]

theorem foldl_append_filter_map {α γ : Type} (p : α → Bool) (f : α → γ) :
    ∀ (l : List α) (acc : List γ),
      l.foldl (fun acc x => if p x then acc ++ [f x] else acc) acc =
        acc ++ (l.filter p).map f := by
  intro l
  induction l with
  | nil => intro acc; simp
  | cons x xs ih =>
      intro acc
      rw [List.foldl_cons, List.filter_cons]
      by_cases hp : p x = true
      · rw [if_pos hp, if_pos hp, ih, List.map_cons]
        simp
      · rw [if_neg hp, if_neg hp, ih]

theorem foldl_append_flatMap {α γ : Type} (h : α → List γ) :
    ∀ (l : List α) (acc : List γ),
      l.foldl (fun acc x => acc ++ h x) acc = acc ++ l.flatMap h := by
  intro l
  induction l with
  | nil => intro acc; simp
  | cons x xs ih =>
      intro acc
      rw [List.foldl_cons, ih]
      simp

/-- Claim C9: `compute_honolulu_flu` emits exactly one row per qualifying
subject game (completed, season type 2 or 3, and a win when play mode is
`beat`), season-major in the input season order and in the provider's
order within a season; and an opponent whose schedule is empty for every
season never drops the row — its resolution is `(none, false, false)` and
the emitted row has null follow-up fields and a null flu verdict. -/
theorem claim_C9 (getSched : String → Int → List GameRec)
    (pd : String → Option Int) (seasons : List Int) (pm : PlayMode)
    (fm : FollowMode) (tid : String) :
    (compute_honolulu_flu getSched pd seasons pm fm tid =
      seasons.flatMap (fun season =>
        (((getSched tid season).filter
            (fun r =>
              decide (r.season_type = some 2 ∨ r.season_type = some 3))).filter
          (qualifies pm)).map
          (fun g => emitRow season g
            (linkGame getSched pd season fm g).1
            (linkGame getSched pd season fm g).2.1
            (linkGame getSched pd season fm g).2.2))) ∧
    (∀ (season : Int) (g : GameRec),
      (∀ s, getSched (pyStr g.opp_id) s = []) →
      linkGame getSched pd season fm g = (none, false, false) ∧
      (emitRow season g none false false).opp_next_result = none ∧
      (emitRow season g none false false).honolulu_flu_loss = none ∧
      (emitRow season g none false false).opp_next_after_bye = false ∧
      (emitRow season g none false false).opp_next_cross_season = false) := by
  constructor
  · unfold compute_honolulu_flu
    refine Eq.trans (foldl_fun_congr _
      (fun rows season => rows ++
        ((((getSched tid season).filter
            (fun r =>
              decide (r.season_type = some 2 ∨ r.season_type = some 3))).filter
          (qualifies pm)).map
          (fun g => emitRow season g
            (linkGame getSched pd season fm g).1
            (linkGame getSched pd season fm g).2.1
            (linkGame getSched pd season fm g).2.2))) ?_ seasons [])
      (Eq.trans (foldl_append_flatMap _ seasons []) (by simp))
    intro rows season
    refine Eq.trans (foldl_fun_congr _
      (fun rows game =>
        if qualifies pm game then rows ++ [emitRow season game
          (linkGame getSched pd season fm game).1
          (linkGame getSched pd season fm game).2.1
          (linkGame getSched pd season fm game).2.2] else rows) ?_
      ((getSched tid season).filter
        (fun r => decide (r.season_type = some 2 ∨ r.season_type = some 3)))
      rows)
      (foldl_append_filter_map (qualifies pm) _ _ rows)
    intro b a
    by_cases hc : a.completed = false
    · rw [if_pos hc]
      have hq : qualifies pm a = false := by
        unfold qualifies
        rw [hc]
        rfl
      simp [hq]
    · have hctrue : a.completed = true := by
        cases hcc : a.completed
        · exact absurd hcc hc
        · rfl
      rw [if_neg hc]
      by_cases hb : pm = PlayMode.beat ∧ a.team_result ≠ some "W"
      · rw [if_pos hb]
        have hq : qualifies pm a = false := by
          unfold qualifies
          rw [hctrue]
          simp
          tauto
        simp [hq]
      · rw [if_neg hb]
        have hq : qualifies pm a = true := by
          unfold qualifies
          rw [hctrue]
          simp
          tauto
        simp [hq]
  · intro season g hempty
    have h1 : getSched (pyStr g.opp_id) season = [] := hempty season
    have h2 : getSched (pyStr g.opp_id) (season + 1) = [] := hempty (season + 1)
    refine ⟨?_, rfl, rfl, rfl, rfl⟩
    by_cases h3 : g.season_type = some 3
    · by_cases hL : g.team_result = some "L"
      · rw [linkGame_post_L getSched pd season fm g h3 hL, h1]
        rfl
      · rw [linkGame_post_elim getSched pd season fm g h3 hL, h2]
        rfl
    · cases fm with
      | week =>
          cases hw : g.week with
          | none =>
              simp only [linkGame]
              rw [if_neg h3]
              simp only [hw, h1, h2]
              rfl
          | some w =>
              simp only [linkGame]
              rw [if_neg h3]
              simp only [hw, h1, h2]
              rfl
      | game =>
          simp only [linkGame]
          rw [if_neg h3]
          simp only [h1, h2]
          rfl

/-- Claim C9 witness: the empty-opponent robustness applied to a concrete
provider with no data. -/
theorem claim_C9_witness :
    linkGame (fun _ _ => ([] : List GameRec)) wC9pd 2024 FollowMode.week
      wC9g = (none, false, false) ∧
    (emitRow 2024 wC9g none false false).opp_next_result = none ∧
    (emitRow 2024 wC9g none false false).honolulu_flu_loss = none ∧
    (emitRow 2024 wC9g none false false).opp_next_after_bye = false ∧
    (emitRow 2024 wC9g none false false).opp_next_cross_season = false :=
  (claim_C9 (fun _ _ => []) wC9pd [2024] PlayMode.play FollowMode.week "8").2
    2024 wC9g (fun _ => rfl)

theorem foldl_filterMap_events (tid : String) :
    ∀ (events : List Event) (acc : List GameRec),
      events.foldl (fun acc ev =>
        match parse_game tid ev with
        | Option.some row => acc ++ [row]
        | Option.none => acc) acc =
      acc ++ events.filterMap (parse_game tid) := by
  intro events
  induction events with
  | nil => intro acc; simp
  | cons e es ih =>
      intro acc
      rw [List.foldl_cons]
      cases hp : parse_game tid e with
      | none => rw [ih]; simp [List.filterMap_cons, hp]
      | some row => rw [ih]; simp [List.filterMap_cons, hp]

theorem get_team_schedule_eq (fetch : String → Int → Int → Except Unit (List Event))
    (tid : String) (season : Int) :
    get_team_schedule fetch tid season =
      sortByKey dateKey (partitionGames fetch tid season 2 ++
        partitionGames fetch tid season 3) := by
  unfold get_team_schedule partitionGames
  rw [show ([2, 3] : List Int) = 2 :: 3 :: [] from rfl]
  rw [List.foldl_cons, List.foldl_cons, List.foldl_nil]
  cases h2 : fetch tid season 2 <;> cases h3 : fetch tid season 3 <;>
    simp [foldl_filterMap_events]

theorem foldl_sides_fst_none (tid : String) :
    ∀ (cs : List Competitor) (p : Option Competitor × Option Competitor),
      (∀ c ∈ cs, ¬ c.team_id = some tid) →
      (cs.foldl (fun p c =>
        if c.team_id = some tid then (some c, p.2) else (p.1, some c)) p).1 =
      p.1 := by
  intro cs
  induction cs with
  | nil => intro p _; rfl
  | cons c cs ih =>
      intro p hall
      rw [List.foldl_cons, if_neg (hall c (List.mem_cons_self _ _))]
      exact ih _ (fun c' hc' => hall c' (List.mem_cons_of_mem _ hc'))

/-- Claim C8: `get_team_schedule` equals the sorted concatenation of the
two independently fetched partitions (so a failure in one still yields the
other), its output is ascending in the date key, and `_parse_game`
silently returns `none` — never an error — for an event with fewer than
two competitors or with no competitor matching the requested team id. -/
theorem claim_C8 (fetch : String → Int → Int → Except Unit (List Event))
    (tid : String) (season : Int) :
    (get_team_schedule fetch tid season =
      sortByKey dateKey (partitionGames fetch tid season 2 ++
        partitionGames fetch tid season 3)) ∧
    List.Pairwise (fun a b => dateKey a ≤ dateKey b)
      (get_team_schedule fetch tid season) ∧
    (∀ ev : Event,
      ((ev.competitions.headD
        { competitors := [], status_completed := none }).competitors).length <
          2 →
      parse_game tid ev = none) ∧
    (∀ ev : Event,
      (∀ c ∈ (ev.competitions.headD
          { competitors := [], status_completed := none }).competitors,
        ¬ c.team_id = some tid) →
      parse_game tid ev = none) ∧
    (fetch tid season 2 = Except.error () →
      get_team_schedule fetch tid season =
        sortByKey dateKey (partitionGames fetch tid season 3)) ∧
    (fetch tid season 3 = Except.error () →
      get_team_schedule fetch tid season =
        sortByKey dateKey (partitionGames fetch tid season 2)) := by
  refine ⟨get_team_schedule_eq fetch tid season, ?_, ?_, ?_, ?_, ?_⟩
  · unfold get_team_schedule
    exact pairwise_sortByKey dateKey _
  · intro ev hlt
    simp only [parse_game]
    rw [if_pos hlt]
  · intro ev hnone
    simp only [parse_game]
    by_cases hlt : (ev.competitions.headD
        { competitors := [], status_completed := none }).competitors.length < 2
    · rw [if_pos hlt]
    · rw [if_neg hlt]
      have h0 := foldl_sides_fst_none tid
        (ev.competitions.headD
          { competitors := [], status_completed := none }).competitors
        (none, none) hnone
      rw [h0]
      simp
  · intro h2err
    rw [get_team_schedule_eq fetch tid season]
    unfold partitionGames
    rw [h2err]
    simp
  · intro h3err
    rw [get_team_schedule_eq fetch tid season]
    unfold partitionGames
    rw [h3err]
    simp

/-- Claim C8 witness: a fetch whose regular-season partition fails still
yields the postseason partition's records. -/
theorem claim_C8_witness :
    get_team_schedule wC8fetch "8" 2024 =
      sortByKey dateKey (partitionGames wC8fetch "8" 2024 3) :=
  (claim_C8 wC8fetch "8" 2024).2.2.2.2.1 rfl
